import Mathlib

/-!
# Verification of the Soundweb control-protocol core

A shallow embedding, in Lean 4, of the protocol/runtime core of the
`companion-module-bss-soundweb` code base: the framing codec
(`src/sweb.ts`), the parameter-address model and its textual parser
(`src/sweb.ts`, `src/utils.ts`), the dB conversions and variable display
(`src/sweb.ts`, variable definitions module), the parameter subscription
manager (`src/parameters.ts`), the response notifier
(`responseNotifier.ts`), the dependency manager and the node connection
watchdog (connection watchdog module).

JavaScript `Buffer` values are modelled as `List Nat` with bytes `< 256`;
JS `Map` as insertion-ordered association lists; JS `Set` as duplicate-free
lists in insertion order.  Asynchronous behaviour (event-emitter delivery,
promise resolution) is modelled by explicit state passing, with a discrete
step per suspension point.
-/

namespace Soundweb

/-! ## Codec: byte substitution, checksum, encapsulation (`src/sweb.ts`) -/

/-- One step of `byteSubstitute`'s switch: the list of bytes pushed for an
input byte.  Reserved bytes 0x02, 0x03, 0x06, 0x15, 0x1B become an escape
pair `0x1B, (byte | 0x80)`; anything else is passed through. -/
def subByte (b : Nat) : List Nat :=
  if b = 0x02 then [0x1b, 0x82]
  else if b = 0x03 then [0x1b, 0x83]
  else if b = 0x06 then [0x1b, 0x86]
  else if b = 0x15 then [0x1b, 0x95]
  else if b = 0x1b then [0x1b, 0x9b]
  else [b]

/-- `byteSubstitute` (src/sweb.ts): escape every reserved byte. -/
def byteSubstitute : List Nat → List Nat
  | [] => []
  | b :: rest => subByte b ++ byteSubstitute rest

/-- The bytes pushed by `byteUnsubstitute` for the byte following an escape
byte 0x1B: only the five escape codes push anything, every other byte is
silently consumed. -/
def unsubEscape (x : Nat) : List Nat :=
  if x = 0x82 then [0x02]
  else if x = 0x83 then [0x03]
  else if x = 0x86 then [0x06]
  else if x = 0x95 then [0x15]
  else if x = 0x9b then [0x1b]
  else []

/-- `byteUnsubstitute` (src/sweb.ts): on 0x1B, consume the next byte as an
escape code (a trailing lone 0x1B reads past the end of the buffer and
pushes nothing, like the JS `switch (undefined)`); other bytes pass
through. -/
def byteUnsubstitute : List Nat → List Nat
  | [] => []
  | 0x1b :: [] => []
  | 0x1b :: x :: rest => unsubEscape x ++ byteUnsubstitute rest
  | b :: rest => b :: byteUnsubstitute rest

/-- The XOR accumulator of `calculateChecksum`: `chk = chk ^ buf[i]`,
starting from 0. -/
def checksumByte (buf : List Nat) : Nat :=
  buf.foldl Nat.xor 0

/-- `calculateChecksum` (src/sweb.ts) returns the checksum as a one-byte
buffer. -/
def calculateChecksum (buf : List Nat) : List Nat :=
  [checksumByte buf]

/-- `encapsulateCommand` (src/sweb.ts): append the checksum, byte-substitute,
wrap in STX (0x02) / ETX (0x03). -/
def encapsulateCommand (buf : List Nat) : List Nat :=
  2 :: byteSubstitute (buf ++ calculateChecksum buf) ++ [3]

/-- `buf.subarray(-1)` on the model: the last element as a one-element list
(empty when the buffer is empty). -/
def lastByte (buf : List Nat) : List Nat :=
  buf.drop (buf.length - 1)

/-- `decapsulateCommand` (src/sweb.ts): strip the first and last byte,
unsubstitute, split off the trailing checksum byte, recompute and compare
(`Buffer.compare == 0` is byte-for-byte equality); `null` on mismatch. -/
def decapsulateCommand (buf : List Nat) : Option (List Nat) :=
  let temp := ((buf.drop 1).dropLast)
  let temp' := byteUnsubstitute temp
  let tempCommand := temp'.dropLast
  let tempChecksum1 := lastByte temp'
  let tempChecksum2 := calculateChecksum tempCommand
  if tempChecksum1 = tempChecksum2 then some tempCommand else none

theorem dropLast_append_single {α : Type} (l : List α) (a : α) :
    (l ++ [a]).dropLast = l := by
  simp

theorem lastByte_append_single (l : List Nat) (a : Nat) :
    lastByte (l ++ [a]) = [a] := by
  unfold lastByte
  rw [show (l ++ [a]).length - 1 = l.length by simp]
  exact List.drop_left l [a]

theorem byteUnsubstitute_cons_of_ne (b : Nat) (hb : b ≠ 0x1b) (l : List Nat) :
    byteUnsubstitute (b :: l) = b :: byteUnsubstitute l := by
  cases l with
  | nil => simp [byteUnsubstitute, hb]
  | cons x r => simp [byteUnsubstitute, hb]

theorem byteUnsubstitute_subByte (b : Nat) (l : List Nat) :
    byteUnsubstitute (subByte b ++ l) = b :: byteUnsubstitute l := by
  by_cases h2 : b = 0x02
  · subst h2; simp [subByte, byteUnsubstitute, unsubEscape]
  by_cases h3 : b = 0x03
  · subst h3; simp [subByte, h2, byteUnsubstitute, unsubEscape]
  by_cases h6 : b = 0x06
  · subst h6; simp [subByte, h2, h3, byteUnsubstitute, unsubEscape]
  by_cases h15 : b = 0x15
  · subst h15; simp [subByte, h2, h3, h6, byteUnsubstitute, unsubEscape]
  by_cases h1b : b = 0x1b
  · subst h1b; simp [subByte, h2, h3, h6, h15, byteUnsubstitute, unsubEscape]
  · rw [subByte, if_neg h2, if_neg h3, if_neg h6, if_neg h15, if_neg h1b,
      List.singleton_append, byteUnsubstitute_cons_of_ne b h1b]

theorem byteUnsubstitute_byteSubstitute (l : List Nat) :
    byteUnsubstitute (byteSubstitute l) = l := by
  induction l with
  | nil => rfl
  | cons b rest ih =>
    simpa [byteSubstitute, byteUnsubstitute_subByte] using ih

/-- `decapsulateCommand` on an explicitly delimited frame `2 :: S ++ [3]`. -/
theorem decapsulateCommand_frame (S : List Nat) :
    decapsulateCommand (2 :: S ++ [3]) =
      (if lastByte (byteUnsubstitute S)
          = calculateChecksum (byteUnsubstitute S).dropLast
        then some (byteUnsubstitute S).dropLast else none) := by
  unfold decapsulateCommand
  have h : ((2 :: S ++ [3]).drop 1).dropLast = S := by
    simp
  rw [h]

/-- C2: For every payload byte sequence (modelling a `Buffer`, all bytes
< 256) — in particular payloads containing every reserved control byte
0x02, 0x03, 0x06, 0x15, 0x1B — `decapsulateCommand (encapsulateCommand
payload)` returns the original payload. -/
theorem decapsulate_encapsulate_roundtrip (payload : List Nat)
    (hbytes : ∀ b ∈ payload, b < 256) :
    decapsulateCommand (encapsulateCommand payload) = some payload := by
  have _hb := hbytes
  rw [show encapsulateCommand payload
      = 2 :: byteSubstitute (payload ++ calculateChecksum payload) ++ [3]
      from rfl,
    decapsulateCommand_frame, byteUnsubstitute_byteSubstitute,
    show calculateChecksum payload = [checksumByte payload] from rfl,
    dropLast_append_single, lastByte_append_single]
  simp [calculateChecksum]

/-- Witness for C2: the payload `[0x02, 0x03, 0x06, 0x15, 0x1B]` containing
every reserved byte value round-trips. -/
theorem decapsulate_encapsulate_roundtrip_witness :
    (∀ b ∈ [0x02, 0x03, 0x06, 0x15, 0x1b], b < 256) ∧
      decapsulateCommand (encapsulateCommand [0x02, 0x03, 0x06, 0x15, 0x1b])
        = some [0x02, 0x03, 0x06, 0x15, 0x1b] :=
  ⟨by decide, decapsulate_encapsulate_roundtrip _ (by decide)⟩

/-! ## Claim C9: single-byte tampering of an encapsulated frame -/

/-- The five reserved control byte values escaped by `byteSubstitute`. -/
def reservedBytes : List Nat := [0x02, 0x03, 0x06, 0x15, 0x1b]

theorem subByte_of_not_reserved (b : Nat) (hb : b ∉ reservedBytes) :
    subByte b = [b] := by
  simp only [reservedBytes, List.mem_cons, List.not_mem_nil, or_false] at hb
  push_neg at hb
  obtain ⟨h2, h3, h6, h15, h1b⟩ := hb
  rw [subByte, if_neg h2, if_neg h3, if_neg h6, if_neg h15, if_neg h1b]

theorem byteSubstitute_of_not_reserved (l : List Nat)
    (hl : ∀ b ∈ l, b ∉ reservedBytes) : byteSubstitute l = l := by
  induction l with
  | nil => rfl
  | cons b rest ih =>
    rw [byteSubstitute, subByte_of_not_reserved b (hl b (by simp)),
      ih fun x hx => hl x (List.mem_cons_of_mem b hx)]
    rfl

theorem byteUnsubstitute_of_no_escape (l : List Nat)
    (hl : ∀ b ∈ l, b ≠ 0x1b) : byteUnsubstitute l = l := by
  induction l with
  | nil => rfl
  | cons b rest ih =>
    rw [byteUnsubstitute_cons_of_ne b (hl b (by simp)),
      ih fun x hx => hl x (List.mem_cons_of_mem b hx)]

theorem foldl_xor_shift (l : List Nat) (c : Nat) :
    l.foldl Nat.xor c = c ^^^ checksumByte l := by
  induction l generalizing c with
  | nil => simp [checksumByte]
  | cons a rest ih =>
    show rest.foldl Nat.xor (c ^^^ a) = c ^^^ checksumByte (a :: rest)
    rw [ih (c ^^^ a),
      show checksumByte (a :: rest) = rest.foldl Nat.xor (0 ^^^ a) from rfl,
      ih (0 ^^^ a), Nat.zero_xor, Nat.xor_assoc]

theorem checksumByte_append_cons (l1 : List Nat) (x : Nat) (l2 : List Nat) :
    checksumByte (l1 ++ x :: l2) = (checksumByte l1 ^^^ x) ^^^ checksumByte l2 := by
  rw [checksumByte, List.foldl_append]
  show (x :: l2).foldl Nat.xor (l1.foldl Nat.xor 0) = _
  rw [show (x :: l2).foldl Nat.xor (l1.foldl Nat.xor 0)
      = l2.foldl Nat.xor (l1.foldl Nat.xor 0 ^^^ x) from rfl,
    foldl_xor_shift l2, ← checksumByte, Nat.xor_assoc]

theorem xor_left_cancel_nat {x a b : Nat} (h : x ^^^ a = x ^^^ b) : a = b := by
  have h2 := congrArg (fun t => x ^^^ t) h
  simpa [← Nat.xor_assoc, Nat.xor_self, Nat.zero_xor] using h2

theorem checksumByte_middle_inj (l1 l2 : List Nat) {v b : Nat}
    (h : checksumByte (l1 ++ v :: l2) = checksumByte (l1 ++ b :: l2)) :
    v = b := by
  rw [checksumByte_append_cons, checksumByte_append_cons] at h
  have h1 : checksumByte l1 ^^^ v = checksumByte l1 ^^^ b := by
    have hc := congrArg (fun t => t ^^^ checksumByte l2) h
    simp only at hc
    have := congrArg (fun t => t ^^^ checksumByte l2) hc
    simpa [Nat.xor_assoc, Nat.xor_self] using hc
  exact xor_left_cancel_nat h1

/-- Counterexample to C9: the claim fails at explicit concrete inputs.  For
payload `[0x1B, 0x00]` the frame is `[2, 0x1B, 0x9B, 0, 0x1B, 0x9B, 3]`.
Changing the interior byte at position 1 from 0x1B to 0x80 makes
`decapsulateCommand` return the (different) payload `[0x80, 0x9B, 0]`, not
null, and changing the STX byte at position 0 to 0x63 is not detected at
all: the original payload is returned. -/
theorem decapsulate_tamper_counterexample :
    (encapsulateCommand [0x1b, 0]).get? 1 = some 0x1b ∧
      (0x80 : Nat) ≠ 0x1b ∧
      decapsulateCommand ((encapsulateCommand [0x1b, 0]).set 1 0x80)
        = some [0x80, 0x9b, 0] ∧
      some [0x80, 0x9b, 0] ≠ (none : Option (List Nat)) ∧
      decapsulateCommand ((encapsulateCommand [0x1b, 0]).set 0 0x63)
        = some [0x1b, 0] := by
  decide

/-- C9 (amended): for a payload none of whose bytes — nor its checksum
byte — is a reserved value, the encapsulated frame is literally
`STX ++ payload ++ checksum ++ ETX`, and changing any single interior byte
(any position other than the leading STX and the trailing ETX) to a
different value other than the escape byte 0x1B makes `decapsulateCommand`
return null.  (Flips of the STX/ETX delimiters are never detected, and
flips that alter the escape structure of a frame containing reserved bytes
can yield a different non-null payload, as the counterexample shows.) -/
theorem decapsulate_interior_tamper (payload u1 u2 : List Nat) (b v : Nat)
    (hres : ∀ x ∈ payload ++ [checksumByte payload], x ∉ reservedBytes)
    (hsplit : payload ++ [checksumByte payload] = u1 ++ b :: u2)
    (hv : v ≠ b) (hv27 : v ≠ 0x1b) :
    encapsulateCommand payload = 2 :: (u1 ++ b :: u2) ++ [3] ∧
      decapsulateCommand (2 :: (u1 ++ v :: u2) ++ [3]) = none := by
  have hframe : encapsulateCommand payload = 2 :: (u1 ++ b :: u2) ++ [3] := by
    rw [encapsulateCommand, calculateChecksum,
      byteSubstitute_of_not_reserved _ hres, hsplit]
  refine ⟨hframe, ?_⟩
  have hne27 : ∀ x ∈ u1 ++ v :: u2, x ≠ 0x1b := by
    intro x hx
    rcases List.mem_append.1 hx with hx1 | hx2
    · have : x ∈ u1 ++ b :: u2 := List.mem_append.1 hx |>.elim
        (fun h => List.mem_append_left _ h) (fun h => List.mem_append_left _ hx1)
      intro hx27
      exact hres x (hsplit ▸ List.mem_append_left _ hx1) (by simp [reservedBytes, hx27])
    · rcases List.mem_cons.1 hx2 with hxv | hxu2
      · exact hxv ▸ hv27
      · intro hx27
        exact hres x (hsplit ▸ List.mem_append_right _ (List.mem_cons_of_mem b hxu2))
          (by simp [reservedBytes, hx27])
  rw [decapsulateCommand_frame, byteUnsubstitute_of_no_escape _ hne27]
  rcases List.eq_nil_or_concat u2 with h2nil | ⟨u2', c, h2c⟩
  · -- the flipped byte is the checksum byte
    subst h2nil
    have hpay : payload = u1 ∧ checksumByte payload = b := by
      constructor
      · have := congrArg List.dropLast hsplit
        simpa [dropLast_append_single] using this
      · have := congrArg lastByte hsplit
        simpa [lastByte_append_single, show u1 ++ [b] = u1 ++ [b] from rfl,
          lastByte_append_single u1 b] using this
    rw [show u1 ++ [v] = u1 ++ [v] from rfl, dropLast_append_single,
      lastByte_append_single]
    have : calculateChecksum u1 = [b] := by
      rw [calculateChecksum, ← hpay.1, hpay.2]
    rw [this, if_neg (by simpa using hv)]
  · -- the flipped byte is inside the command part
    subst h2c
    simp only [List.concat_eq_append] at hsplit hne27 ⊢
    have hlastc : checksumByte payload = c := by
      have := congrArg lastByte hsplit
      rw [lastByte_append_single] at this
      have h' : u1 ++ b :: (u2' ++ [c]) = (u1 ++ b :: u2') ++ [c] := by simp
      rw [h', lastByte_append_single] at this
      exact (List.cons.injEq _ _ _ _ ▸ this).1
    have hcmd : payload = u1 ++ b :: u2' := by
      have := congrArg List.dropLast hsplit
      rw [dropLast_append_single] at this
      have h' : u1 ++ b :: (u2' ++ [c]) = (u1 ++ b :: u2') ++ [c] := by simp
      rw [h', dropLast_append_single] at this
      exact this
    have harr : u1 ++ v :: (u2' ++ [c]) = (u1 ++ v :: u2') ++ [c] := by simp
    rw [harr, dropLast_append_single, lastByte_append_single]
    have hne : calculateChecksum (u1 ++ v :: u2') ≠ [c] := by
      intro hEq
      rw [calculateChecksum] at hEq
      have : checksumByte (u1 ++ v :: u2') = c := by simpa using hEq
      rw [← hlastc, hcmd] at this
      exact hv (checksumByte_middle_inj u1 u2' this)
    rw [if_neg (by simpa using fun h => hne h.symm)]

/-- Witness for the amended C9: payload `[1, 4]` (checksum 5, nothing
reserved), flipping the command byte 4 at interior position 2 to 7 yields
null. -/
theorem decapsulate_interior_tamper_witness :
    encapsulateCommand [1, 4] = 2 :: ([1] ++ 4 :: [5]) ++ [3] ∧
      decapsulateCommand (2 :: ([1] ++ 7 :: [5]) ++ [3]) = none :=
  decapsulate_interior_tamper [1, 4] [1] [5] 4 7 (by decide) (by decide)
    (by decide) (by decide)

/-! ## Regular expressions (`src/utils.ts`)

The address format check in `ParameterAddress.fromString` uses the
JavaScript regular expression `FQ_PARAM_ADDR_REGEXP`.  We embed the exact
regex as a small abstract syntax tree (character, character class,
one-or-more of a character class, concatenation, alternation — the only
constructs the source regexes use) and a backtracking acceptor;
`new RegExp(...).test` with a `^...$`-anchored pattern is full-string
acceptance. -/

inductive RE where
  | chr (c : Char)
  | cls (p : Char → Bool)
  | plus (p : Char → Bool)
  | cat (r1 r2 : RE)
  | alt (r1 r2 : RE)

/-- `p+` matches one or more characters of class `p`; the continuation `k`
is tried at every split point. -/
def acceptPlus (p : Char → Bool) (k : List Char → Bool) : List Char → Bool
  | [] => false
  | c :: rest => p c && (k rest || acceptPlus p k rest)

/-- Backtracking acceptance: `reAccept r s k` holds when some prefix of `s`
matches `r` and `k` accepts the corresponding suffix. -/
def reAccept : RE → List Char → (List Char → Bool) → Bool
  | .chr c, s, k =>
    match s with
    | [] => false
    | c' :: rest => c' == c && k rest
  | .cls p, s, k =>
    match s with
    | [] => false
    | c' :: rest => p c' && k rest
  | .plus p, s, k => acceptPlus p k s
  | .cat r1 r2, s, k => reAccept r1 s (fun rest => reAccept r2 rest k)
  | .alt r1 r2, s, k => reAccept r1 s k || reAccept r2 s k

/-- Full-string acceptance (the source pattern is anchored with `^` and
`$`). -/
def reTest (r : RE) (s : String) : Bool :=
  reAccept r s.data (fun rest => rest.isEmpty)

/-- The JS `.` metacharacter (anything but a line terminator). -/
def jsDot (c : Char) : Bool := c != '\n'

/-- `VARIABLE_REGEXP = \$\(.+\)` (src/utils.ts). -/
def VARIABLE_REGEXP : RE :=
  .cat (.chr '$') (.cat (.chr '(') (.cat (.plus jsDot) (.chr ')')))

/-- `OCTET_PART_REGEXP = \d+|\$\(.+\)` (src/utils.ts). -/
def OCTET_PART_REGEXP : RE :=
  .alt (.plus Char.isDigit) VARIABLE_REGEXP

/-- `HEX_VALUE_REGEXP = 0x[a-zA-Z0-9]+` (src/utils.ts). -/
def HEX_VALUE_REGEXP : RE :=
  .cat (.chr '0') (.cat (.chr 'x') (.plus Char.isAlphanum))

/-- `DECIMAL_VALUE_REGEXP = \d+` (src/utils.ts). -/
def DECIMAL_VALUE_REGEXP : RE := .plus Char.isDigit

/-- `NODE_REGEXP` (src/utils.ts): decimal, hex, or variable. -/
def NODE_REGEXP : RE :=
  .alt DECIMAL_VALUE_REGEXP (.alt HEX_VALUE_REGEXP VARIABLE_REGEXP)

/-- `VD_REGEXP` (src/utils.ts): same alternatives as `NODE_REGEXP`. -/
def VD_REGEXP : RE :=
  .alt DECIMAL_VALUE_REGEXP (.alt HEX_VALUE_REGEXP VARIABLE_REGEXP)

/-- `OBJ_REGEXP` (src/utils.ts): three dot-separated octet parts, or a hex
value, or a decimal value, or a variable.  Note the octet parts admit only
`\d+|\$\(.+\)` — there is no hex alternative inside the three-octet
form. -/
def OBJ_REGEXP : RE :=
  .alt
    (.cat OCTET_PART_REGEXP
      (.cat (.chr '.') (.cat OCTET_PART_REGEXP
        (.cat (.chr '.') OCTET_PART_REGEXP))))
    (.alt HEX_VALUE_REGEXP (.alt DECIMAL_VALUE_REGEXP VARIABLE_REGEXP))

/-- `PARAM_REGEXP` (src/utils.ts): same alternatives as `NODE_REGEXP`. -/
def PARAM_REGEXP : RE :=
  .alt DECIMAL_VALUE_REGEXP (.alt HEX_VALUE_REGEXP VARIABLE_REGEXP)

/-- `FQ_PARAM_ADDR_REGEXP =
`^(((NODE)\.(VD)\.(OBJ))|HEX)\.(PARAM)$` (src/utils.ts). -/
def FQ_PARAM_ADDR_REGEXP : RE :=
  .cat
    (.alt
      (.cat NODE_REGEXP (.cat (.chr '.') (.cat VD_REGEXP
        (.cat (.chr '.') OBJ_REGEXP))))
      HEX_VALUE_REGEXP)
    (.cat (.chr '.') PARAM_REGEXP)

/-! ## ParameterAddress (`src/sweb.ts`) -/

/-- `ParameterAddress` (src/sweb.ts): node, virtual device, object address
as a dotted three-octet string, parameter. -/
structure ParameterAddress where
  node : Nat
  vd : Nat
  obj : String
  param : Nat
deriving DecidableEq, Repr

/-- `ParameterAddress.toString` (src/sweb.ts): the fully qualified string
form `node.vd.obj.param`. -/
def ParameterAddress.toString (a : ParameterAddress) : String :=
  Nat.repr a.node ++ "." ++ Nat.repr a.vd ++ "." ++ a.obj ++ "."
    ++ Nat.repr a.param

/-- `objectAddressToOctets` (src/sweb.ts): decompose a 24-bit object
address into three dotted octets (`(input >> 16) & 0xff` etc.; the JS
int32 shifts agree with the Nat formulas on the range `[0, 2^31)` this
code is called with). -/
def objectAddressToOctets (input : Nat) : String :=
  Nat.repr ((input >>> 16) % 256) ++ "." ++ Nat.repr ((input >>> 8) % 256)
    ++ "." ++ Nat.repr (input % 256)

/-- JS `split('.')`: split a character list at every `'.'`. -/
def splitDotAux (cur : List Char) : List Char → List (List Char)
  | [] => [cur.reverse]
  | c :: rest =>
    if c = '.' then cur.reverse :: splitDotAux [] rest
    else splitDotAux (c :: cur) rest

/-- `addrStr.split('.')` on the model. -/
def jsSplitDot (s : String) : List String :=
  (splitDotAux [] s.data).map (fun l => String.mk l)

/-- Value of a hexadecimal digit. -/
def hexDigitVal (c : Char) : Option Nat :=
  if c.isDigit then some (c.toNat - '0'.toNat)
  else if 'a' ≤ c ∧ c ≤ 'f' then some (c.toNat - 'a'.toNat + 10)
  else if 'A' ≤ c ∧ c ≤ 'F' then some (c.toNat - 'A'.toNat + 10)
  else none

def parseHexDigits (acc : Nat) : List Char → Option Nat
  | [] => some acc
  | c :: rest =>
    match hexDigitVal c with
    | some d => parseHexDigits (acc * 16 + d) rest
    | none => none

def parseDecDigits (acc : Nat) : List Char → Option Nat
  | [] => some acc
  | c :: rest =>
    if c.isDigit then parseDecDigits (acc * 10 + (c.toNat - '0'.toNat)) rest
    else none

/-- The JS `Number(string)` / `BigInt(string)` coercion used by
`z.coerce.number()` and `z.coerce.bigint()`, restricted to the nonnegative
decimal and `0x`-prefixed hexadecimal integer literal forms that the
surrounding code can produce (anything else — including `$(...)` variable
references — yields `NaN`, which fails the zod check; modelled as
`none`). -/
def jsNumber? (s : String) : Option Nat :=
  match s.data with
  | [] => none
  | '0' :: 'x' :: rest =>
    match rest with
    | [] => none
    | _ => parseHexDigits 0 rest
  | l => parseDecDigits 0 l

/-- `z.coerce.number().gte(lo).lte(hi).parse`: coerce then range-check;
a failure throws in the source, modelled as `none`. -/
def zCoerceNum (lo hi : Nat) (s : String) : Option Nat :=
  match jsNumber? s with
  | none => none
  | some n => if lo ≤ n ∧ n ≤ hi then some n else none

/-- `ParameterAddress.fromString` (src/sweb.ts): validate against
`FQ_PARAM_ADDR_REGEXP`, split on `'.'`, then dispatch on the number of
fields (6, 4 or 2); every thrown `ZodError`/format error is modelled as
`none`. -/
def ParameterAddress.fromString (addrStr : String) : Option ParameterAddress :=
  if reTest FQ_PARAM_ADDR_REGEXP addrStr = false then none
  else
    match jsSplitDot addrStr with
    | [node, vd, obj1, obj2, obj3, param] =>
      match zCoerceNum 0 0xffff node, zCoerceNum 0 0xff vd,
          zCoerceNum 0 0xff obj1, zCoerceNum 0 0xff obj2,
          zCoerceNum 0 0xff obj3, zCoerceNum 0 0xffff param with
      | some n, some v, some a, some b, some c, some p =>
        some ⟨n, v, Nat.repr a ++ "." ++ Nat.repr b ++ "." ++ Nat.repr c, p⟩
      | _, _, _, _, _, _ => none
    | [node, vd, obj, param] =>
      -- 4-field form: `z.coerce.number().gte(0)` with no upper bound
      match zCoerceNum 0 0xffff node, zCoerceNum 0 0xff vd, jsNumber? obj,
          zCoerceNum 0 0xffff param with
      | some n, some v, some o, some p =>
        some ⟨n, v, objectAddressToOctets o, p⟩
      | _, _, _, _ => none
    | [fqObj, param] =>
      -- 2-field form: `partsFromFqObjectAddr` on a bigint
      match jsNumber? fqObj, zCoerceNum 0 0xffff param with
      | some f, some p =>
        some ⟨(f >>> 32) % 0x10000, (f >>> 24) % 0x100,
          objectAddressToOctets (f % 0x1000000), p⟩
      | _, _ => none
    | _ => none

/-- C3 fails on the code: the 6-field decimal form and the 4-field packed
form both parse to `{node 999, vd 3, obj "0.1.1", param 0}`, but the hex
6-field form `"0x03e7.0x03.0x00.0x01.0x01.0x00"` is rejected by
`FQ_PARAM_ADDR_REGEXP` (its octet sub-pattern `\d+|\$\(.+\)` has no hex
alternative), so `fromString` throws a `ParameterAddressParsingError`
(`none`) instead of parsing it. -/
theorem fromString_three_forms :
    ParameterAddress.fromString "999.3.0.1.1.0"
        = some ⟨999, 3, "0.1.1", 0⟩ ∧
      ParameterAddress.fromString "999.3.257.0"
        = some ⟨999, 3, "0.1.1", 0⟩ ∧
      ParameterAddress.fromString "0x03e7.0x03.0x00.0x01.0x01.0x00"
        = none := by
  decide

/-! ## dB conversions (`src/sweb.ts`) and the dB variable display

The claimed values all live on the linear branch (`dB ≥ -10`), where the
JavaScript double arithmetic is exact, so a real-number model is faithful
at every claimed point.  `Math.round(x)` is `⌊x + 1/2⌋`. -/

/-- `MINIMUM_GAIN_RAW_VALUE` (src/sweb.ts). -/
def MINIMUM_GAIN_RAW_VALUE : ℤ := -280617

/-- JS `Math.round` on rationals: round half away from zero is
half-up, `⌊x + 1/2⌋`. -/
def jsRound (x : ℚ) : ℤ := ⌊x + 1 / 2⌋

/-- JS `Math.round` on reals. -/
noncomputable def jsRoundR (x : ℝ) : ℤ := ⌊x + 1 / 2⌋

/-- The argument type of `dbToRaw` (src/sweb.ts): `number | '-inf'`. -/
inductive DbInput where
  | num (q : ℚ)
  | neginf
deriving DecidableEq

/-- `dbToRaw` (src/sweb.ts): `'-inf'` is replaced by `-80`; the dB value is
rounded to two decimals; linear `× 10000` at or above `-10` dB, logarithmic
below. -/
noncomputable def dbToRaw (dbValue : DbInput) : ℝ :=
  let db : ℚ := match dbValue with | .neginf => -80 | .num q => q
  let db' : ℚ := (jsRound (db * 100) : ℚ) / 100
  if -10 ≤ db' then ((db' * 10000 : ℚ) : ℝ)
  else -Real.logb 10 |(db' : ℝ) / 10| * 200000 - 100000

/-- `rawToDb` (src/sweb.ts): linear `/ 10000` at or above `-100000`,
logarithmic below, result rounded to two decimals. -/
noncomputable def rawToDb (rawValue : ℚ) : ℝ :=
  let value : ℝ :=
    if -100000 ≤ rawValue then ((rawValue / 10000 : ℚ) : ℝ)
    else -10 * (10 : ℝ) ^ (((|rawValue + 100000| / 200000 : ℚ) : ℝ))
  (jsRoundR (value * 100) : ℝ) / 100

/-- A JS value produced by `getVariableValue`: a display string or a
number. -/
inductive JsDisplayValue where
  | str (s : String)
  | num (x : ℝ)

/-- `DBParameterVariableDefinition.getVariableValue` (variable definitions
module): the minimum representable raw gain displays as `"-inf"`;
otherwise the value is converted with `rawToDb` and rounded to two
decimals. -/
noncomputable def dbGetVariableValue (rawValue : ℚ) : JsDisplayValue :=
  if rawValue = (MINIMUM_GAIN_RAW_VALUE : ℚ) then .str "-inf"
  else .num ((jsRoundR (rawToDb rawValue * 100) : ℝ) / 100)

theorem jsRound_eval (x : ℚ) : jsRound x = ⌊x + 1 / 2⌋ := rfl

/-- C8: the exact dB conversion values.  `dbToRaw 0 = 0`,
`dbToRaw (-10) = -100000`, `rawToDb (-100000) = -10`; the `'-inf'` input is
encoded exactly as `-80` dB is; and the cached minimum raw value `-280617`
displays as the string `"-inf"`. -/
theorem db_conversion_values :
    dbToRaw (.num 0) = 0 ∧
      dbToRaw (.num (-10)) = -100000 ∧
      rawToDb (-100000) = -10 ∧
      dbToRaw .neginf = dbToRaw (.num (-80)) ∧
      dbGetVariableValue ((MINIMUM_GAIN_RAW_VALUE : ℚ)) = .str "-inf" := by
  refine ⟨?_, ?_, ?_, rfl, ?_⟩
  · show dbToRaw (.num 0) = 0
    rw [dbToRaw]
    have h1 : jsRound ((0 : ℚ) * 100) = 0 := by
      rw [jsRound_eval]; norm_num
    simp only [h1]
    norm_num
  · show dbToRaw (.num (-10)) = -100000
    rw [dbToRaw]
    have h1 : jsRound ((-10 : ℚ) * 100) = -1000 := by
      rw [jsRound_eval]
      rw [show (-10 : ℚ) * 100 + 1 / 2 = -1999 / 2 by norm_num]
      norm_num [Int.floor_eq_iff]
    simp only [h1]
    norm_num
  · show rawToDb (-100000) = -10
    rw [rawToDb]
    rw [if_pos (by norm_num)]
    have h1 : (((-100000 : ℚ) / 10000 : ℚ) : ℝ) * 100 = ((-1000 : ℚ) : ℝ) := by
      push_cast; ring
    rw [h1]
    have h2 : jsRoundR ((-1000 : ℚ) : ℝ) = -1000 := by
      rw [jsRoundR]
      rw [show ((-1000 : ℚ) : ℝ) + 1 / 2 = ((-1999 / 2 : ℚ) : ℝ) by
        push_cast; ring]
      rw [Rat.floor_cast]
      norm_num [Int.floor_eq_iff]
    rw [h2]
    norm_num
  · rw [dbGetVariableValue, if_pos rfl]

/-! ## JavaScript collections

JS `Set` is modelled as a duplicate-free list in insertion order, JS `Map`
as an insertion-ordered association list (`set` replaces in place, `delete`
removes the entry), and — where the source never iterates a map — as a
plain `K → Option V` lookup function. -/

def setAdd {A : Type} [DecidableEq A] (s : List A) (a : A) : List A :=
  if a ∈ s then s else s ++ [a]

def setDelete {A : Type} [DecidableEq A] : List A → A → List A
  | [], _ => []
  | x :: rest, a => if x = a then rest else x :: setDelete rest a

def mapGet {K V : Type} [DecidableEq K] : List (K × V) → K → Option V
  | [], _ => none
  | (k', v) :: rest, k => if k' = k then some v else mapGet rest k

def mapSet {K V : Type} [DecidableEq K] : List (K × V) → K → V → List (K × V)
  | [], k, v => [(k, v)]
  | (k', v') :: rest, k, v =>
    if k' = k then (k, v) :: rest else (k', v') :: mapSet rest k v

def mapDelete {K V : Type} [DecidableEq K] : List (K × V) → K → List (K × V)
  | [], _ => []
  | (k', v') :: rest, k => if k' = k then rest else (k', v') :: mapDelete rest k

def fnUpdate {K V : Type} [DecidableEq K] (m : K → Option V) (k : K)
    (v : Option V) : K → Option V :=
  fun k' => if k' = k then v else m k'

theorem mem_setAdd {A : Type} [DecidableEq A] (s : List A) (a x : A) :
    x ∈ setAdd s a ↔ x ∈ s ∨ x = a := by
  unfold setAdd
  by_cases h : a ∈ s
  · rw [if_pos h]
    constructor
    · exact Or.inl
    · rintro (hx | rfl)
      · exact hx
      · exact h
  · rw [if_neg h]
    simp

theorem setAdd_ne_nil {A : Type} [DecidableEq A] (s : List A) (a : A) :
    setAdd s a ≠ [] := by
  unfold setAdd
  by_cases h : a ∈ s
  · rw [if_pos h]
    exact List.ne_nil_of_mem h
  · rw [if_neg h]
    simp

theorem nodup_setAdd {A : Type} [DecidableEq A] (s : List A) (a : A)
    (h : s.Nodup) : (setAdd s a).Nodup := by
  unfold setAdd
  by_cases ha : a ∈ s
  · rwa [if_pos ha]
  · rw [if_neg ha]
    simpa [List.nodup_append] using ⟨h, fun hx => ha hx⟩

theorem mem_setDelete {A : Type} [DecidableEq A] (s : List A) (a x : A)
    (h : s.Nodup) : x ∈ setDelete s a ↔ x ∈ s ∧ x ≠ a := by
  induction s with
  | nil => simp [setDelete]
  | cons y rest ih =>
    have hy : y ∉ rest := (List.nodup_cons.1 h).1
    have hr : rest.Nodup := (List.nodup_cons.1 h).2
    unfold setDelete
    by_cases hya : y = a
    · subst hya
      rw [if_pos rfl]
      constructor
      · intro hx
        exact ⟨List.mem_cons_of_mem y hx, fun hxy => hy (hxy ▸ hx)⟩
      · rintro ⟨hx, hxa⟩
        rcases List.mem_cons.1 hx with rfl | hx
        · exact absurd rfl hxa
        · exact hx
    · rw [if_neg hya]
      constructor
      · intro hx
        rcases List.mem_cons.1 hx with rfl | hx
        · exact ⟨List.mem_cons_self x rest, hya⟩
        · exact ⟨List.mem_cons_of_mem y ((ih hr).1 hx).1, ((ih hr).1 hx).2⟩
      · rintro ⟨hx, hxa⟩
        rcases List.mem_cons.1 hx with rfl | hx
        · exact List.mem_cons_self x _
        · exact List.mem_cons_of_mem y ((ih hr).2 ⟨hx, hxa⟩)

theorem nodup_setDelete {A : Type} [DecidableEq A] (s : List A) (a : A)
    (h : s.Nodup) : (setDelete s a).Nodup := by
  induction s with
  | nil => simp [setDelete]
  | cons y rest ih =>
    have hy : y ∉ rest := (List.nodup_cons.1 h).1
    have hr : rest.Nodup := (List.nodup_cons.1 h).2
    unfold setDelete
    by_cases hya : y = a
    · rw [if_pos hya]; exact hr
    · rw [if_neg hya]
      refine List.nodup_cons.2 ⟨fun hx => ?_, ih hr⟩
      exact hy ((mem_setDelete rest a y hr).1 hx).1

/-! ## DependencyManager (connection watchdog module)

A generic bidirectional reference-count map between dependents and
dependencies.  The source never iterates either `Map`, so each is modelled
as a lookup function `key → Option Set`. -/

/-- The two internal maps of `DependencyManager<DependencyIdType,
DependentIdType>`. -/
structure DependencyManager (α β : Type) where
  dependentsToDependencies : β → Option (List α)
  dependenciesToDependents : α → Option (List β)

/-- The freshly constructed manager: both maps empty. -/
def DependencyManager.empty {α β : Type} : DependencyManager α β :=
  ⟨fun _ => none, fun _ => none⟩

/-- `addDependent` (source): add the dependent to the dependency's set and
the dependency to the dependent's set, creating absent entries. -/
def DependencyManager.addDependent {α β : Type} [DecidableEq α]
    [DecidableEq β] (s : DependencyManager α β) (dependentId : β)
    (dependencyId : α) : DependencyManager α β :=
  let dependents :=
    setAdd ((s.dependenciesToDependents dependencyId).getD []) dependentId
  let dependencies :=
    setAdd ((s.dependentsToDependencies dependentId).getD []) dependencyId
  { dependentsToDependencies :=
      fnUpdate s.dependentsToDependencies dependentId (some dependencies)
    dependenciesToDependents :=
      fnUpdate s.dependenciesToDependents dependencyId (some dependents) }

/-- `removeDependent` (source): delete the pairing in both directions and
drop any entry whose set became empty.  An absent entry is untouched
(`get(...)?.delete` is a no-op and `undefined == 0` is false). -/
def DependencyManager.removeDependent {α β : Type} [DecidableEq α]
    [DecidableEq β] (s : DependencyManager α β) (dependentId : β)
    (dependencyId : α) : DependencyManager α β :=
  { dependenciesToDependents :=
      fnUpdate s.dependenciesToDependents dependencyId
        (match s.dependenciesToDependents dependencyId with
          | none => none
          | some l =>
            let l' := setDelete l dependentId
            if l' = [] then none else some l')
    dependentsToDependencies :=
      fnUpdate s.dependentsToDependencies dependentId
        (match s.dependentsToDependencies dependentId with
          | none => none
          | some l =>
            let l' := setDelete l dependencyId
            if l' = [] then none else some l') }

/-- `getDependents` (source): the dependency's set of dependents (or
`undefined`). -/
def DependencyManager.getDependents {α β : Type} (s : DependencyManager α β)
    (dependencyId : α) : Option (List β) :=
  s.dependenciesToDependents dependencyId

/-- `getDependencies` (source): the dependent's set of dependencies (or
`undefined`). -/
def DependencyManager.getDependencies {α β : Type} (s : DependencyManager α β)
    (dependentId : β) : Option (List α) :=
  s.dependentsToDependencies dependentId

/-- Membership in an optional set (`undefined` is the empty set). -/
def memOpt {A : Type} (o : Option (List A)) (a : A) : Prop :=
  a ∈ o.getD []

/-- One call to the manager: `addDependent` or `removeDependent`. -/
inductive DepOp (α β : Type) where
  | add (dependentId : β) (dependencyId : α)
  | remove (dependentId : β) (dependencyId : α)

def applyDepOp {α β : Type} [DecidableEq α] [DecidableEq β]
    (s : DependencyManager α β) : DepOp α β → DependencyManager α β
  | .add d c => s.addDependent d c
  | .remove d c => s.removeDependent d c

/-- The manager state after a finite sequence of calls on a fresh
manager. -/
def runDepOps {α β : Type} [DecidableEq α] [DecidableEq β]
    (ops : List (DepOp α β)) : DependencyManager α β :=
  ops.foldl applyDepOp DependencyManager.empty

/-- The full inductive invariant: mutual consistency, no retained empty
entries, and both directions duplicate-free. -/
def DepInv {α β : Type} (s : DependencyManager α β) : Prop :=
  (∀ c d, memOpt (s.dependenciesToDependents c) d
      ↔ memOpt (s.dependentsToDependencies d) c) ∧
    (∀ c, s.dependenciesToDependents c ≠ some []) ∧
    (∀ d, s.dependentsToDependencies d ≠ some []) ∧
    (∀ c l, s.dependenciesToDependents c = some l → l.Nodup) ∧
    (∀ d l, s.dependentsToDependencies d = some l → l.Nodup)

theorem depInv_empty {α β : Type} : DepInv (DependencyManager.empty (α := α) (β := β)) := by
  refine ⟨fun c d => ?_, fun c => ?_, fun d => ?_, fun c l h => ?_, fun d l h => ?_⟩
    <;> simp_all [DependencyManager.empty, memOpt]

theorem memOpt_some_setAdd {A : Type} [DecidableEq A] (o : Option (List A))
    (a x : A) : memOpt (some (setAdd (o.getD []) a)) x ↔ memOpt o x ∨ x = a := by
  simp [memOpt, mem_setAdd]

theorem nodup_getD {A : Type} (o : Option (List A))
    (h : ∀ l, o = some l → l.Nodup) : (o.getD []).Nodup := by
  cases o with
  | none => simp
  | some l => simpa using h l rfl

theorem depInv_add {α β : Type} [DecidableEq α] [DecidableEq β]
    {s : DependencyManager α β} (h : DepInv s) (d : β) (c : α) :
    DepInv (s.addDependent d c) := by
  obtain ⟨hcons, hne1, hne2, hnd1, hnd2⟩ := h
  refine ⟨fun c' d' => ?_, fun c' => ?_, fun d' => ?_,
    fun c' l hl => ?_, fun d' l hl => ?_⟩
  · by_cases hc : c' = c <;> by_cases hd : d' = d
    · rw [hc, hd]
      simp only [DependencyManager.addDependent, fnUpdate,
        eq_self_iff_true, if_true, memOpt_some_setAdd]
      simp
    · rw [hc]
      simp only [DependencyManager.addDependent, fnUpdate,
        eq_self_iff_true, if_true, if_neg hd, memOpt_some_setAdd]
      constructor
      · rintro (h1 | h1)
        · exact (hcons c d').1 h1
        · exact absurd h1 hd
      · exact fun h1 => Or.inl ((hcons c d').2 h1)
    · rw [hd]
      simp only [DependencyManager.addDependent, fnUpdate,
        eq_self_iff_true, if_true, if_neg hc, memOpt_some_setAdd]
      constructor
      · exact fun h1 => Or.inl ((hcons c' d).1 h1)
      · rintro (h1 | h1)
        · exact (hcons c' d).2 h1
        · exact absurd h1 hc
    · simp only [DependencyManager.addDependent, fnUpdate,
        if_neg hc, if_neg hd]
      exact hcons c' d'
  · simp only [DependencyManager.addDependent, fnUpdate]
    by_cases hc : c' = c
    · rw [if_pos hc]
      intro hcontra
      exact setAdd_ne_nil _ _ (Option.some.inj hcontra)
    · rw [if_neg hc]; exact hne1 c'
  · simp only [DependencyManager.addDependent, fnUpdate]
    by_cases hd : d' = d
    · rw [if_pos hd]
      intro hcontra
      exact setAdd_ne_nil _ _ (Option.some.inj hcontra)
    · rw [if_neg hd]; exact hne2 d'
  · simp only [DependencyManager.addDependent, fnUpdate] at hl
    by_cases hc : c' = c
    · rw [if_pos hc] at hl
      have hl2 := Option.some.inj hl
      rw [← hl2]
      exact nodup_setAdd _ _ (nodup_getD _ (hnd1 c))
    · rw [if_neg hc] at hl
      exact hnd1 c' l hl
  · simp only [DependencyManager.addDependent, fnUpdate] at hl
    by_cases hd : d' = d
    · rw [if_pos hd] at hl
      have hl2 := Option.some.inj hl
      rw [← hl2]
      exact nodup_setAdd _ _ (nodup_getD _ (hnd2 d))
    · rw [if_neg hd] at hl
      exact hnd2 d' l hl

theorem memOpt_removeVal {A : Type} [DecidableEq A] (o : Option (List A))
    (x a : A) (hnd : ∀ l, o = some l → l.Nodup) :
    memOpt (match o with
      | none => none
      | some l => let l' := setDelete l x; if l' = [] then none else some l') a
      ↔ memOpt o a ∧ a ≠ x := by
  cases o with
  | none => simp [memOpt]
  | some l =>
    have hl := hnd l rfl
    simp only [memOpt, Option.getD_some]
    by_cases hnil : setDelete l x = []
    · simp only [hnil, if_pos rfl]
      constructor
      · intro h
        simp [memOpt] at h
      · rintro ⟨ha, hax⟩
        have := (mem_setDelete l x a hl).2 ⟨ha, hax⟩
        rw [hnil] at this
        simp at this
    · simp only [hnil, if_neg hnil, Option.getD_some]
      exact mem_setDelete l x a hl

theorem depInv_remove {α β : Type} [DecidableEq α] [DecidableEq β]
    {s : DependencyManager α β} (h : DepInv s) (d : β) (c : α) :
    DepInv (s.removeDependent d c) := by
  obtain ⟨hcons, hne1, hne2, hnd1, hnd2⟩ := h
  refine ⟨fun c' d' => ?_, fun c' => ?_, fun d' => ?_,
    fun c' l hl => ?_, fun d' l hl => ?_⟩
  · by_cases hc : c' = c <;> by_cases hd : d' = d
    · rw [hc, hd]
      simp only [DependencyManager.removeDependent, fnUpdate,
        eq_self_iff_true, if_true]
      rw [memOpt_removeVal _ d d (hnd1 c), memOpt_removeVal _ c c (hnd2 d)]
      simp
    · rw [hc]
      simp only [DependencyManager.removeDependent, fnUpdate,
        eq_self_iff_true, if_true, if_neg hd]
      rw [memOpt_removeVal _ d d' (hnd1 c)]
      constructor
      · rintro ⟨h1, _⟩
        exact (hcons c d').1 h1
      · intro h1
        exact ⟨(hcons c d').2 h1, hd⟩
    · rw [hd]
      simp only [DependencyManager.removeDependent, fnUpdate,
        eq_self_iff_true, if_true, if_neg hc]
      rw [memOpt_removeVal _ c c' (hnd2 d)]
      constructor
      · intro h1
        exact ⟨(hcons c' d).1 h1, hc⟩
      · rintro ⟨h1, _⟩
        exact (hcons c' d).2 h1
    · simp only [DependencyManager.removeDependent, fnUpdate,
        if_neg hc, if_neg hd]
      exact hcons c' d'
  · simp only [DependencyManager.removeDependent, fnUpdate]
    by_cases hc : c' = c
    · rw [if_pos hc]
      cases ho : s.dependenciesToDependents c with
      | none => simp
      | some l =>
        simp only []
        by_cases hnil : setDelete l d = []
        · simp [hnil]
        · simp [hnil]
    · rw [if_neg hc]; exact hne1 c'
  · simp only [DependencyManager.removeDependent, fnUpdate]
    by_cases hd : d' = d
    · rw [if_pos hd]
      cases ho : s.dependentsToDependencies d with
      | none => simp
      | some l =>
        simp only []
        by_cases hnil : setDelete l c = []
        · simp [hnil]
        · simp [hnil]
    · rw [if_neg hd]; exact hne2 d'
  · simp only [DependencyManager.removeDependent, fnUpdate] at hl
    by_cases hc : c' = c
    · rw [if_pos hc] at hl
      cases ho : s.dependenciesToDependents c with
      | none => rw [ho] at hl; cases hl
      | some l0 =>
        rw [ho] at hl
        simp only [] at hl
        by_cases hnil : setDelete l0 d = []
        · rw [if_pos hnil] at hl; cases hl
        · rw [if_neg hnil, Option.some.injEq] at hl
          subst hl
          exact nodup_setDelete _ _ (hnd1 c l0 ho)
    · rw [if_neg hc] at hl
      exact hnd1 c' l hl
  · simp only [DependencyManager.removeDependent, fnUpdate] at hl
    by_cases hd : d' = d
    · rw [if_pos hd] at hl
      cases ho : s.dependentsToDependencies d with
      | none => rw [ho] at hl; cases hl
      | some l0 =>
        rw [ho] at hl
        simp only [] at hl
        by_cases hnil : setDelete l0 c = []
        · rw [if_pos hnil] at hl; cases hl
        · rw [if_neg hnil, Option.some.injEq] at hl
          subst hl
          exact nodup_setDelete _ _ (hnd2 d l0 ho)
    · rw [if_neg hd] at hl
      exact hnd2 d' l hl

theorem depInv_run {α β : Type} [DecidableEq α] [DecidableEq β]
    (ops : List (DepOp α β)) : DepInv (runDepOps ops) := by
  suffices h : ∀ s, DepInv s → DepInv (ops.foldl applyDepOp s) from
    h DependencyManager.empty depInv_empty
  induction ops with
  | nil => exact fun s hs => hs
  | cons op rest ih =>
    intro s hs
    cases op with
    | add d c => exact ih _ (depInv_add hs d c)
    | remove d c => exact ih _ (depInv_remove hs d c)

/-- C10: after any finite sequence of `addDependent`/`removeDependent`
calls on a fresh `DependencyManager`, the two internal maps are mutually
consistent — `d ∈ getDependents c` iff `c ∈ getDependencies d` — and
neither map retains a key whose associated set is empty. -/
theorem dependencyManager_consistent {α β : Type} [DecidableEq α]
    [DecidableEq β] (ops : List (DepOp α β)) :
    (∀ c d, memOpt ((runDepOps ops).getDependents c) d
        ↔ memOpt ((runDepOps ops).getDependencies d) c) ∧
      (∀ c, (runDepOps ops).getDependents c ≠ some []) ∧
      (∀ d, (runDepOps ops).getDependencies d ≠ some []) := by
  obtain ⟨h1, h2, h3, _, _⟩ := depInv_run ops
  exact ⟨h1, h2, h3⟩

/-! ## ResponseNotifier (`responseNotifier.ts`)

`response(requestId)` awaits `once(emitter, requestId)` under a timeout;
`setResponse(requestId, data)` is `emitter.emit(requestId, data)`.  The
emitter's listener registry is the state: each pending `response()` call is
one registered once-listener, identified by a caller-chosen tag.  Node's
`emit` invokes *every* listener registered under the event name, and
`events.once` resolves its promise with the array of event arguments, so a
resolved waiter observes `[data]`, not `data`.  On timeout the `catch`
block runs `removeAllListeners(requestId)`. -/

/-- A JS runtime value as far as this code produces them: a number, an
event-args array of numbers, or `null`. -/
inductive JsValue where
  | num (n : Int)
  | arrOfNum (l : List Int)
  | null
deriving DecidableEq, Repr

/-- `ResponseNotification<DataType>` (responseNotifier.ts): the result
object `{data, error}`; the error is modelled by its message. -/
structure ResponseNotification where
  data : JsValue
  error : Option String
deriving DecidableEq, Repr

/-- The `ResponseNotifier` state: the underlying `EventEmitter`'s listener
registry, mapping a request id to the pending waiters (once-listeners) in
registration order.  A waiter is named by the numeric tag its caller
chose. -/
structure ResponseNotifier where
  listeners : List (String × List Nat)
deriving DecidableEq, Repr

/-- The start of `response(requestId)`: `once(emitter, requestId)` appends
one once-listener for the key. -/
def ResponseNotifier.registerWaiter (s : ResponseNotifier)
    (requestId : String) (w : Nat) : ResponseNotifier :=
  ⟨mapSet s.listeners requestId ((mapGet s.listeners requestId).getD [] ++ [w])⟩

/-- `setResponse(requestId, data)` = `emit(requestId, data)`: every
listener currently registered under the key fires (each a once-listener,
so all are removed), and each waiter's `response()` resolves with
`{data: [data], error: null}` — the `events.once` args array.  Returns the
new state and the resolutions in registration order. -/
def ResponseNotifier.setResponse (s : ResponseNotifier) (requestId : String)
    (data : Int) : ResponseNotifier × List (Nat × ResponseNotification) :=
  (⟨mapDelete s.listeners requestId⟩,
    ((mapGet s.listeners requestId).getD []).map
      (fun w => (w, ⟨.arrOfNum [data], none⟩)))

/-- The timeout path of `response(requestId)`:
`emitter.removeAllListeners(requestId)` drops every listener under the
key. -/
def ResponseNotifier.timeoutCleanup (s : ResponseNotifier)
    (requestId : String) : ResponseNotifier :=
  ⟨mapDelete s.listeners requestId⟩

/-- The result object returned by the timeout branch of `response`:
`{data: null, error: Error(...)}` — an error value in the result, not a
thrown exception. -/
def timeoutResult (requestId : String) : ResponseNotification :=
  ⟨.null, some ("There was no response to request: " ++ requestId
    ++ " within 1s")⟩

theorem mapGet_eq_none_of_not_mem {K V : Type} [DecidableEq K]
    (m : List (K × V)) (k : K) (h : k ∉ m.map Prod.fst) :
    mapGet m k = none := by
  induction m with
  | nil => rfl
  | cons e rest ih =>
    obtain ⟨k', v⟩ := e
    have hk : k' ≠ k := by
      intro hcontra
      exact h (by simp [hcontra])
    rw [mapGet, if_neg hk]
    exact ih (fun hcontra => h (List.mem_cons_of_mem _ hcontra))

theorem mapGet_mapDelete_self {K V : Type} [DecidableEq K]
    (m : List (K × V)) (k : K) (h : (m.map Prod.fst).Nodup) :
    mapGet (mapDelete m k) k = none := by
  induction m with
  | nil => rfl
  | cons e rest ih =>
    obtain ⟨k', v⟩ := e
    rw [List.map_cons] at h
    have hk : k' ∉ rest.map Prod.fst := (List.nodup_cons.1 h).1
    have hr : (rest.map Prod.fst).Nodup := (List.nodup_cons.1 h).2
    by_cases hke : k' = k
    · rw [mapDelete, if_pos hke]
      exact mapGet_eq_none_of_not_mem rest k (hke ▸ hk)
    · rw [mapDelete, if_neg hke, mapGet, if_neg hke]
      exact ih hr

/-- Counterexample to C4: with two waiters concurrently awaiting the same
key, a single `setResponse` resolves *both* of them (Node's `emit` fires
every listener registered under the event name), not exactly one. -/
theorem responseNotifier_two_waiters_counterexample :
    (ResponseNotifier.setResponse
        (ResponseNotifier.registerWaiter
          (ResponseNotifier.registerWaiter ⟨[]⟩ "k" 1) "k" 2) "k" 5).2
        = [(1, ⟨.arrOfNum [5], none⟩), (2, ⟨.arrOfNum [5], none⟩)] ∧
      ¬((ResponseNotifier.setResponse
          (ResponseNotifier.registerWaiter
            (ResponseNotifier.registerWaiter ⟨[]⟩ "k" 1) "k" 2) "k" 5).2.length
        = 1) := by
  decide

/-- C4 (amended): a single `setResponse(key, value)` resolves *every*
waiter currently awaiting that key, in registration order, each receiving
the event-args array `[value]`; when no waiter is pending the resolution
list is empty and nothing is buffered (the notifier state holds only
listeners, never values); afterwards no listener remains registered under
the key, and a timeout likewise removes every listener registration for
the key, so none leaks. -/
theorem responseNotifier_delivery (s : ResponseNotifier) (requestId : String)
    (data : Int) (hkeys : (s.listeners.map Prod.fst).Nodup) :
    (s.setResponse requestId data).2
        = ((mapGet s.listeners requestId).getD []).map
            (fun w => (w, ⟨.arrOfNum [data], none⟩)) ∧
      mapGet (s.setResponse requestId data).1.listeners requestId = none ∧
      mapGet (s.timeoutCleanup requestId).listeners requestId = none := by
  refine ⟨rfl, ?_, ?_⟩
  · exact mapGet_mapDelete_self s.listeners requestId hkeys
  · exact mapGet_mapDelete_self s.listeners requestId hkeys

/-- Witness for the amended C4 at a concrete one-waiter state. -/
theorem responseNotifier_delivery_witness :
    (((ResponseNotifier.mk [("k", [7])]).listeners.map Prod.fst).Nodup) ∧
      ((ResponseNotifier.mk [("k", [7])]).setResponse "k" 3).2
          = [(7, ⟨.arrOfNum [3], none⟩)] ∧
      mapGet ((ResponseNotifier.mk [("k", [7])]).setResponse "k" 3).1.listeners
          "k" = none ∧
      mapGet ((ResponseNotifier.mk [("k", [7])]).timeoutCleanup "k").listeners
          "k" = none := by
  have h := responseNotifier_delivery ⟨[("k", [7])]⟩ "k" 3 (by decide)
  exact ⟨by decide, by rw [h.1]; decide, h.2.1, h.2.2⟩

/-! ## Parameter subscriptions (`src/parameters.ts`)

The manager's injected `deviceSubscribe`/`deviceUnsubscribe` callbacks are
modelled as emitted `DeviceCommand`s; each operation returns the new state
together with the commands it sent, in order. -/

/-- Modelled from the spec: the `DependentType` enum of the missing
`dependents.ts` module — per the spec's glossary, a dependent is "a
consumer (action, feedback, or published variable)". -/
inductive DependentType where
  | ACTION
  | FEEDBACK
  | VARIABLE
deriving DecidableEq, Repr

/-- `ParameterSubscriptionType` (src/parameters.ts). -/
inductive ParameterSubscriptionType where
  | RAW
  | PERCENT
deriving DecidableEq, Repr

/-- `ParameterUnit` (src/parameters.ts). -/
inductive ParameterUnit where
  | RAW
  | DB
  | PERCENT
  | BOOL
  | FREQ
deriving DecidableEq, Repr

/-- `paramSubIdSuffixFromSubscriptionType` (src/parameters.ts). -/
def paramSubIdSuffixFromSubscriptionType
    (subscriptionType : ParameterSubscriptionType) : String :=
  if subscriptionType = .RAW then ":STD" else ":PC"

/-- `parameterSubscriptionTypeFromUnit` (src/parameters.ts). -/
def parameterSubscriptionTypeFromUnit (unit : ParameterUnit) :
    ParameterSubscriptionType :=
  if unit = .PERCENT then .PERCENT else .RAW

/-- `ParameterSubscription` (src/parameters.ts): the cached value and the
per-kind sets of dependent ids. -/
structure ParameterSubscription where
  id : String
  parameterAddress : ParameterAddress
  type : ParameterSubscriptionType
  dependentRegistrations : List (DependentType × List String)
  value : Option Int
deriving DecidableEq, Repr

/-- `ParameterSubscription.hasDependents`: total registered dependents
across all kinds is positive. -/
def ParameterSubscription.hasDependents (s : ParameterSubscription) : Bool :=
  (s.dependentRegistrations.foldl (fun total e => total + e.2.length) 0) > 0

/-- `ParameterSubscription.hasNoDependents`. -/
def ParameterSubscription.hasNoDependents (s : ParameterSubscription) : Bool :=
  !s.hasDependents

/-- `ParameterSubscription.registerDependent`: ensure the kind's set
exists, then add the id to it. -/
def ParameterSubscription.registerDependent (s : ParameterSubscription)
    (depType : DependentType) (depId : String) : ParameterSubscription :=
  let m0 := if (mapGet s.dependentRegistrations depType).isNone
    then mapSet s.dependentRegistrations depType []
    else s.dependentRegistrations
  { s with dependentRegistrations :=
      mapSet m0 depType (setAdd ((mapGet m0 depType).getD []) depId) }

/-- `ParameterSubscription.deregister`: remove the id from the kind's set
(no-op when the kind has no set). -/
def ParameterSubscription.deregister (s : ParameterSubscription)
    (depType : DependentType) (depId : String) : ParameterSubscription :=
  match mapGet s.dependentRegistrations depType with
  | none => s
  | some l =>
    { s with dependentRegistrations :=
        mapSet s.dependentRegistrations depType (setDelete l depId) }

/-- A wire command sent through the injected
`deviceSubscribe`/`deviceUnsubscribe` callbacks. -/
inductive DeviceCommand where
  | subscribe (paramAddress : ParameterAddress)
      (subType : ParameterSubscriptionType)
  | unsubscribe (paramAddress : ParameterAddress)
      (subType : ParameterSubscriptionType)
deriving DecidableEq, Repr

/-- The mutable state of `ParameterSubscriptionManager`
(src/parameters.ts). -/
structure ParameterSubscriptionManager where
  paramSubMap : List (String × ParameterSubscription)
  paramAddressMap : List (String × List String)
  paramSubDependentsMap : List (DependentType × List (String × List String))
  nodeMap : List (Nat × List String)
  responseNotifier : ResponseNotifier
deriving DecidableEq, Repr

/-- A freshly constructed manager: all maps empty. -/
def ParameterSubscriptionManager.empty : ParameterSubscriptionManager :=
  ⟨[], [], [], [], ⟨[]⟩⟩

namespace ParameterSubscriptionManager

/-- `subscribeToDevice`: invoke the injected `deviceSubscribe` callback. -/
def subscribeToDevice (sub : ParameterSubscription) : List DeviceCommand :=
  [.subscribe sub.parameterAddress sub.type]

/-- `unsubscribeFromDevice`: invoke the injected `deviceUnsubscribe`
callback. -/
def unsubscribeFromDevice (sub : ParameterSubscription) : List DeviceCommand :=
  [.unsubscribe sub.parameterAddress sub.type]

/-- `#addNodeMapping`: add the subscription id to the node's set, creating
it if the node is new (a `Set` object is always truthy, so the branch is
on key presence). -/
def addNodeMapping (st : ParameterSubscriptionManager) (node : Nat)
    (paramSubId : String) : ParameterSubscriptionManager :=
  match mapGet st.nodeMap node with
  | some s => { st with nodeMap := mapSet st.nodeMap node (setAdd s paramSubId) }
  | none => { st with nodeMap := mapSet st.nodeMap node [paramSubId] }

/-- `#removeNodeMapping`: delete the subscription id from the node's set
and drop the node entry once empty. -/
def removeNodeMapping (st : ParameterSubscriptionManager) (node : Nat)
    (paramSubId : String) : ParameterSubscriptionManager :=
  let st1 := match mapGet st.nodeMap node with
    | none => st
    | some s =>
      { st with nodeMap := mapSet st.nodeMap node (setDelete s paramSubId) }
  if mapGet st1.nodeMap node = some [] then
    { st1 with nodeMap := mapDelete st1.nodeMap node }
  else st1

/-- `#createParameterSubscription`: create the subscription with empty
dependents and a null value, install every mapping, and subscribe on the
device. -/
def createParameterSubscription (st : ParameterSubscriptionManager)
    (paramId : String) (paramAddress : ParameterAddress)
    (subscriptionType : ParameterSubscriptionType) :
    ParameterSubscription × ParameterSubscriptionManager × List DeviceCommand :=
  let newParamSub : ParameterSubscription :=
    ⟨paramId, paramAddress, subscriptionType, [], none⟩
  let addrString := paramAddress.toString
  let st1 := { st with paramSubMap := mapSet st.paramSubMap paramId newParamSub }
  let set0 := (mapGet st1.paramAddressMap addrString).getD []
  let set1 := setAdd set0 newParamSub.id
  let st2 := { st1 with paramAddressMap := mapSet st1.paramAddressMap addrString set1 }
  let st3 := addNodeMapping st2 paramAddress.node newParamSub.id
  (newParamSub, st3, subscribeToDevice newParamSub)

/-- `#getOrCreateParameterSubscription`. -/
def getOrCreateParameterSubscription (st : ParameterSubscriptionManager)
    (paramId : String) (paramAddress : ParameterAddress)
    (subscriptionType : ParameterSubscriptionType) :
    ParameterSubscription × ParameterSubscriptionManager × List DeviceCommand :=
  match mapGet st.paramSubMap paramId with
  | some sub => (sub, st, [])
  | none => createParameterSubscription st paramId paramAddress subscriptionType

/-- `#removeParameterSubscription`: remove the subscription and its
address/node mappings, then unsubscribe on the device. -/
def removeParameterSubscription (st : ParameterSubscriptionManager)
    (paramSub : ParameterSubscription) :
    ParameterSubscriptionManager × List DeviceCommand :=
  let st1 := { st with paramSubMap := mapDelete st.paramSubMap paramSub.id }
  let paramAddrString := paramSub.parameterAddress.toString
  let st2 := match mapGet st1.paramAddressMap paramAddrString with
    | none => st1
    | some l =>
      let l' := setDelete l paramSub.id
      if l' = [] then
        { st1 with paramAddressMap := mapDelete st1.paramAddressMap paramAddrString }
      else
        { st1 with paramAddressMap := mapSet st1.paramAddressMap paramAddrString l' }
  let st3 := removeNodeMapping st2 paramSub.parameterAddress.node paramSub.id
  (st3, unsubscribeFromDevice paramSub)

/-- `#purgeParameterSubscription`: tear the subscription down exactly when
it has no dependents left. -/
def purgeParameterSubscription (st : ParameterSubscriptionManager)
    (parameterSubscription : ParameterSubscription) :
    ParameterSubscriptionManager × List DeviceCommand :=
  if parameterSubscription.hasNoDependents then
    removeParameterSubscription st parameterSubscription
  else (st, [])

/-- `#getParamSubIdFromUnit`. -/
def getParamSubIdFromUnit (paramAddress : ParameterAddress)
    (unit : ParameterUnit) : String :=
  paramAddress.toString
    ++ paramSubIdSuffixFromSubscriptionType (parameterSubscriptionTypeFromUnit unit)

/-- `#getParamSubIdFromSubscriptionType`. -/
def getParamSubIdFromSubscriptionType (paramAddress : ParameterAddress)
    (subscriptionType : ParameterSubscriptionType) : String :=
  paramAddress.toString ++ paramSubIdSuffixFromSubscriptionType subscriptionType

/-- `#addParamSubRegistration` — including its slip: when the dependent
already has a set of subscription ids, the code takes that existing set
and writes it back *without adding* `paramSub.id`; only a freshly created
set (`?? new Set([paramSub.id])`) carries the new id. -/
def addParamSubRegistration (st : ParameterSubscriptionManager)
    (depType : DependentType) (depId : String)
    (paramSub : ParameterSubscription) : ParameterSubscriptionManager :=
  let m0 := if (mapGet st.paramSubDependentsMap depType).isNone
    then mapSet st.paramSubDependentsMap depType []
    else st.paramSubDependentsMap
  let paramIds := ((mapGet m0 depType).bind
    (fun inner => mapGet inner depId)).getD [paramSub.id]
  let inner1 := mapSet ((mapGet m0 depType).getD []) depId paramIds
  { st with paramSubDependentsMap := mapSet m0 depType inner1 }

/-- `#popParamSubDependent`: read the dependent's subscription ids and
delete its entry. -/
def popParamSubDependent (st : ParameterSubscriptionManager)
    (depType : DependentType) (depId : String) :
    List String × ParameterSubscriptionManager :=
  let paramSubIds := ((mapGet st.paramSubDependentsMap depType).bind
    (fun inner => mapGet inner depId)).getD []
  let st1 := match mapGet st.paramSubDependentsMap depType with
    | none => st
    | some inner =>
      { st with paramSubDependentsMap := mapSet st.paramSubDependentsMap depType (mapDelete inner depId) }
  (paramSubIds, st1)

/-- `registerDependent` (src/parameters.ts): get-or-create the
subscription, record the reverse-index registration, and register the
dependent on the subscription object. -/
def registerDependent (st : ParameterSubscriptionManager)
    (depType : DependentType) (depId : String)
    (paramAddress : ParameterAddress) (unit : ParameterUnit) :
    ParameterSubscriptionManager × List DeviceCommand :=
  let paramId := getParamSubIdFromUnit paramAddress unit
  let subscriptionType := parameterSubscriptionTypeFromUnit unit
  let res := getOrCreateParameterSubscription st paramId paramAddress
    subscriptionType
  let paramSub := res.1
  let st1 := res.2.1
  let cmds := res.2.2
  let st2 := addParamSubRegistration st1 depType depId paramSub
  -- `paramSub.registerDependent(...)` mutates the object held in
  -- `paramSubMap`
  let registered := paramSub.registerDependent depType depId
  let st3 := { st2 with paramSubMap := mapSet st2.paramSubMap paramSub.id registered }
  (st3, cmds)

/-- `deregisterDependent` (src/parameters.ts): pop the dependent's
subscription ids from the reverse index, and for each one deregister the
dependent and purge the subscription if it is now dependentless. -/
def deregisterDependent (st : ParameterSubscriptionManager)
    (depType : DependentType) (depId : String) :
    ParameterSubscriptionManager × List DeviceCommand :=
  let pop := popParamSubDependent st depType depId
  let paramSubIds := pop.1
  let st1 := pop.2
  paramSubIds.foldl
    (fun acc paramSubId =>
      match mapGet acc.1.paramSubMap paramSubId with
      | none => acc
      | some paramSub =>
        let paramSub1 := paramSub.deregister depType depId
        let stB := { acc.1 with paramSubMap := mapSet acc.1.paramSubMap paramSub.id paramSub1 }
        let purged := purgeParameterSubscription stB paramSub1
        (purged.1, acc.2 ++ purged.2))
    (st1, [])

/-- The value-changed notification (src/parameters.ts): the new value and
the full dependent map of the subscription. -/
structure ValueChangeNotification where
  value : Int
  dependents : List (DependentType × List String)
deriving DecidableEq, Repr

/-- `setCachedParameterValue` (src/parameters.ts): get-or-create the
subscription; when the value changed, store it and fire the value-changed
callback with the dependent map; always resolve pending
`getParameterValue` waiters via the response notifier.  Returns the new
state, the device commands sent, the optional change notification, and the
waiter resolutions. -/
def setCachedParameterValue (st : ParameterSubscriptionManager)
    (paramAddress : ParameterAddress)
    (subscriptionType : ParameterSubscriptionType) (value : Int) :
    ParameterSubscriptionManager × List DeviceCommand
      × Option ValueChangeNotification
      × List (Nat × ResponseNotification) :=
  let paramId := getParamSubIdFromSubscriptionType paramAddress subscriptionType
  let res := getOrCreateParameterSubscription st paramId paramAddress
    subscriptionType
  let paramSub := res.1
  let st1 := res.2.1
  let cmds := res.2.2
  let changed := paramSub.value ≠ some value
  let updatedSub := { paramSub with value := some value }
  let st2 := if changed then
      { st1 with paramSubMap := mapSet st1.paramSubMap paramSub.id updatedSub }
    else st1
  let notification := if changed then
    some ⟨value, paramSub.dependentRegistrations⟩ else none
  let resolved := st2.responseNotifier.setResponse paramId value
  ({ st2 with responseNotifier := resolved.1 }, cmds, notification, resolved.2)

/-- The outcome of a `getParameterValue` call up to its suspension point:
either an immediate result from the cache, or a pending wait registered
under the subscription id. -/
inductive GetValueOutcome where
  | immediate (result : ResponseNotification)
  | pending (requestId : String) (w : Nat)
deriving DecidableEq, Repr

/-- `getParameterValue` (src/parameters.ts): return the cached value
immediately when present (`{data: value, error: null}`); otherwise
re-issue a device subscribe and await `responseNotifier.response(paramId)`
(the pending waiter is tagged `w`). -/
def getParameterValue (st : ParameterSubscriptionManager)
    (paramAddress : ParameterAddress)
    (subscriptionType : ParameterSubscriptionType) (w : Nat) :
    ParameterSubscriptionManager × List DeviceCommand × GetValueOutcome :=
  let paramId := getParamSubIdFromSubscriptionType paramAddress subscriptionType
  let res := getOrCreateParameterSubscription st paramId paramAddress
    subscriptionType
  let paramSub := res.1
  let st1 := res.2.1
  let cmds := res.2.2
  match paramSub.value with
  | some v => (st1, cmds, .immediate ⟨.num v, none⟩)
  | none =>
    let cmds2 := cmds ++ subscribeToDevice paramSub
    let st2 := { st1 with responseNotifier := st1.responseNotifier.registerWaiter paramId w }
    (st2, cmds2, .pending paramId w)

end ParameterSubscriptionManager

/-! Small-step rewrite rules for the collection operations, keyed
syntactically so that lookups with a compound (symbolic) key rewrite
without evaluating a `Decidable` instance. -/

theorem mapGet_nil {K V : Type} [DecidableEq K] (k : K) :
    mapGet ([] : List (K × V)) k = none := rfl

theorem mapGet_cons_self {K V : Type} [DecidableEq K] (k : K) (v : V)
    (rest : List (K × V)) : mapGet ((k, v) :: rest) k = some v := by
  rw [mapGet, if_pos rfl]

theorem mapGet_cons_ne {K V : Type} [DecidableEq K] {k' k : K} (h : k' ≠ k)
    (v : V) (rest : List (K × V)) :
    mapGet ((k', v) :: rest) k = mapGet rest k := by
  rw [mapGet, if_neg h]

theorem mapSet_nil {K V : Type} [DecidableEq K] (k : K) (v : V) :
    mapSet ([] : List (K × V)) k v = [(k, v)] := rfl

theorem mapSet_cons_self {K V : Type} [DecidableEq K] (k : K) (v' v : V)
    (rest : List (K × V)) : mapSet ((k, v') :: rest) k v = (k, v) :: rest := by
  rw [mapSet, if_pos rfl]

theorem mapSet_cons_ne {K V : Type} [DecidableEq K] {k' k : K} (h : k' ≠ k)
    (v' v : V) (rest : List (K × V)) :
    mapSet ((k', v') :: rest) k v = (k', v') :: mapSet rest k v := by
  rw [mapSet, if_neg h]

theorem mapDelete_nil {K V : Type} [DecidableEq K] (k : K) :
    mapDelete ([] : List (K × V)) k = [] := rfl

theorem mapDelete_cons_self {K V : Type} [DecidableEq K] (k : K) (v : V)
    (rest : List (K × V)) : mapDelete ((k, v) :: rest) k = rest := by
  rw [mapDelete, if_pos rfl]

theorem mapDelete_cons_ne {K V : Type} [DecidableEq K] {k' k : K} (h : k' ≠ k)
    (v : V) (rest : List (K × V)) :
    mapDelete ((k', v) :: rest) k = (k', v) :: mapDelete rest k := by
  rw [mapDelete, if_neg h]

theorem setDelete_nil {A : Type} [DecidableEq A] (a : A) :
    setDelete ([] : List A) a = [] := rfl

theorem setDelete_cons_self {A : Type} [DecidableEq A] (x : A) (rest : List A) :
    setDelete (x :: rest) x = rest := by
  rw [setDelete, if_pos rfl]

theorem setDelete_cons_ne {A : Type} [DecidableEq A] {x a : A} (h : x ≠ a)
    (rest : List A) : setDelete (x :: rest) a = x :: setDelete rest a := by
  rw [setDelete, if_neg h]

/-- The manager state after registering the first dependent
`(FEEDBACK, "fb1")` on a fresh manager (intermediate state of the C5
lifecycle scenario). -/
def lifecycleS1 (a : ParameterAddress) (u : ParameterUnit) :
    ParameterSubscriptionManager :=
  ⟨[(ParameterSubscriptionManager.getParamSubIdFromUnit a u,
      ⟨ParameterSubscriptionManager.getParamSubIdFromUnit a u, a,
        parameterSubscriptionTypeFromUnit u, [(.FEEDBACK, ["fb1"])], none⟩)],
    [(a.toString, [ParameterSubscriptionManager.getParamSubIdFromUnit a u])],
    [(.FEEDBACK,
      [("fb1", [ParameterSubscriptionManager.getParamSubIdFromUnit a u])])],
    [(a.node, [ParameterSubscriptionManager.getParamSubIdFromUnit a u])],
    ⟨[]⟩⟩

/-- The state after additionally registering `(FEEDBACK, "fb2")` on the
same (address, unit). -/
def lifecycleS2 (a : ParameterAddress) (u : ParameterUnit) :
    ParameterSubscriptionManager :=
  ⟨[(ParameterSubscriptionManager.getParamSubIdFromUnit a u,
      ⟨ParameterSubscriptionManager.getParamSubIdFromUnit a u, a,
        parameterSubscriptionTypeFromUnit u, [(.FEEDBACK, ["fb1", "fb2"])],
        none⟩)],
    [(a.toString, [ParameterSubscriptionManager.getParamSubIdFromUnit a u])],
    [(.FEEDBACK,
      [("fb1", [ParameterSubscriptionManager.getParamSubIdFromUnit a u]),
        ("fb2", [ParameterSubscriptionManager.getParamSubIdFromUnit a u])])],
    [(a.node, [ParameterSubscriptionManager.getParamSubIdFromUnit a u])],
    ⟨[]⟩⟩

/-- The state after then deregistering `(FEEDBACK, "fb1")`. -/
def lifecycleS3 (a : ParameterAddress) (u : ParameterUnit) :
    ParameterSubscriptionManager :=
  ⟨[(ParameterSubscriptionManager.getParamSubIdFromUnit a u,
      ⟨ParameterSubscriptionManager.getParamSubIdFromUnit a u, a,
        parameterSubscriptionTypeFromUnit u, [(.FEEDBACK, ["fb2"])], none⟩)],
    [(a.toString, [ParameterSubscriptionManager.getParamSubIdFromUnit a u])],
    [(.FEEDBACK,
      [("fb2", [ParameterSubscriptionManager.getParamSubIdFromUnit a u])])],
    [(a.node, [ParameterSubscriptionManager.getParamSubIdFromUnit a u])],
    ⟨[]⟩⟩

theorem lifecycle_step1 (a : ParameterAddress) (u : ParameterUnit) :
    ParameterSubscriptionManager.empty.registerDependent .FEEDBACK "fb1" a u
      = (lifecycleS1 a u,
          [.subscribe a (parameterSubscriptionTypeFromUnit u)]) := by
  cases u <;>
    simp [ParameterSubscriptionManager.empty, lifecycleS1,
      ParameterSubscriptionManager.registerDependent,
      ParameterSubscriptionManager.getOrCreateParameterSubscription,
      ParameterSubscriptionManager.createParameterSubscription,
      ParameterSubscriptionManager.addNodeMapping,
      ParameterSubscriptionManager.addParamSubRegistration,
      ParameterSubscriptionManager.getParamSubIdFromUnit,
      ParameterSubscriptionManager.subscribeToDevice,
      ParameterSubscription.registerDependent,
      parameterSubscriptionTypeFromUnit, paramSubIdSuffixFromSubscriptionType,
      mapGet_nil, mapGet_cons_self, mapGet_cons_ne, mapSet_nil,
      mapSet_cons_self, mapSet_cons_ne, setAdd]

theorem lifecycle_step2 (a : ParameterAddress) (u : ParameterUnit) :
    (lifecycleS1 a u).registerDependent .FEEDBACK "fb2" a u
      = (lifecycleS2 a u, []) := by
  cases u <;>
    simp [lifecycleS1, lifecycleS2,
      ParameterSubscriptionManager.registerDependent,
      ParameterSubscriptionManager.getOrCreateParameterSubscription,
      ParameterSubscriptionManager.createParameterSubscription,
      ParameterSubscriptionManager.addNodeMapping,
      ParameterSubscriptionManager.addParamSubRegistration,
      ParameterSubscriptionManager.getParamSubIdFromUnit,
      ParameterSubscriptionManager.subscribeToDevice,
      ParameterSubscription.registerDependent,
      parameterSubscriptionTypeFromUnit, paramSubIdSuffixFromSubscriptionType,
      mapGet_nil, mapGet_cons_self, mapGet_cons_ne, mapSet_nil,
      mapSet_cons_self, mapSet_cons_ne, setAdd]

theorem lifecycle_step3 (a : ParameterAddress) (u : ParameterUnit) :
    (lifecycleS2 a u).deregisterDependent .FEEDBACK "fb1"
      = (lifecycleS3 a u, []) := by
  cases u <;>
    simp [lifecycleS2, lifecycleS3,
      ParameterSubscriptionManager.deregisterDependent,
      ParameterSubscriptionManager.popParamSubDependent,
      ParameterSubscriptionManager.purgeParameterSubscription,
      ParameterSubscriptionManager.removeParameterSubscription,
      ParameterSubscriptionManager.removeNodeMapping,
      ParameterSubscriptionManager.getParamSubIdFromUnit,
      ParameterSubscriptionManager.unsubscribeFromDevice,
      ParameterSubscription.deregister,
      ParameterSubscription.hasNoDependents, ParameterSubscription.hasDependents,
      parameterSubscriptionTypeFromUnit, paramSubIdSuffixFromSubscriptionType,
      mapGet_nil, mapGet_cons_self, mapGet_cons_ne, mapSet_nil,
      mapSet_cons_self, mapSet_cons_ne, mapDelete_nil, mapDelete_cons_self,
      mapDelete_cons_ne, setDelete_nil, setDelete_cons_self,
      setDelete_cons_ne]

theorem lifecycle_step4 (a : ParameterAddress) (u : ParameterUnit) :
    (lifecycleS3 a u).deregisterDependent .FEEDBACK "fb2"
      = (⟨[], [], [(.FEEDBACK, [])], [], ⟨[]⟩⟩,
          [.unsubscribe a (parameterSubscriptionTypeFromUnit u)]) := by
  cases u <;>
    simp [lifecycleS3,
      ParameterSubscriptionManager.deregisterDependent,
      ParameterSubscriptionManager.popParamSubDependent,
      ParameterSubscriptionManager.purgeParameterSubscription,
      ParameterSubscriptionManager.removeParameterSubscription,
      ParameterSubscriptionManager.removeNodeMapping,
      ParameterSubscriptionManager.getParamSubIdFromUnit,
      ParameterSubscriptionManager.unsubscribeFromDevice,
      ParameterSubscription.deregister,
      ParameterSubscription.hasNoDependents, ParameterSubscription.hasDependents,
      parameterSubscriptionTypeFromUnit, paramSubIdSuffixFromSubscriptionType,
      mapGet_nil, mapGet_cons_self, mapGet_cons_ne, mapSet_nil,
      mapSet_cons_self, mapSet_cons_ne, mapDelete_nil, mapDelete_cons_self,
      mapDelete_cons_ne, setDelete_nil, setDelete_cons_self,
      setDelete_cons_ne]

/-- C5: for one (address, unit) pair — any address, any unit — registering
the first dependent sends exactly one device subscribe; registering a
second dependent on the same pair sends nothing further; deregistering one
of the two leaves the subscription alive with no unsubscribe; deregistering
the remaining one sends exactly one device unsubscribe and removes the
subscription. -/
theorem subscription_lifecycle (paramAddress : ParameterAddress)
    (unit : ParameterUnit) :
    (ParameterSubscriptionManager.empty.registerDependent .FEEDBACK "fb1"
        paramAddress unit).2
      = [.subscribe paramAddress (parameterSubscriptionTypeFromUnit unit)] ∧
    ((ParameterSubscriptionManager.empty.registerDependent .FEEDBACK "fb1"
        paramAddress unit).1.registerDependent .FEEDBACK "fb2"
        paramAddress unit).2 = [] ∧
    (((ParameterSubscriptionManager.empty.registerDependent .FEEDBACK "fb1"
        paramAddress unit).1.registerDependent .FEEDBACK "fb2"
        paramAddress unit).1.deregisterDependent .FEEDBACK "fb1").2 = [] ∧
    (mapGet (((ParameterSubscriptionManager.empty.registerDependent .FEEDBACK
        "fb1" paramAddress unit).1.registerDependent .FEEDBACK "fb2"
        paramAddress unit).1.deregisterDependent .FEEDBACK
        "fb1").1.paramSubMap
      (ParameterSubscriptionManager.getParamSubIdFromUnit paramAddress
        unit)).isSome = true ∧
    ((((ParameterSubscriptionManager.empty.registerDependent .FEEDBACK "fb1"
        paramAddress unit).1.registerDependent .FEEDBACK "fb2"
        paramAddress unit).1.deregisterDependent .FEEDBACK
        "fb1").1.deregisterDependent .FEEDBACK "fb2").2
      = [.unsubscribe paramAddress (parameterSubscriptionTypeFromUnit unit)] ∧
    mapGet ((((ParameterSubscriptionManager.empty.registerDependent .FEEDBACK
        "fb1" paramAddress unit).1.registerDependent .FEEDBACK "fb2"
        paramAddress unit).1.deregisterDependent .FEEDBACK
        "fb1").1.deregisterDependent .FEEDBACK "fb2").1.paramSubMap
      (ParameterSubscriptionManager.getParamSubIdFromUnit paramAddress unit)
      = none := by
  rw [lifecycle_step1]
  simp only [Prod.fst, Prod.snd]
  rw [lifecycle_step2]
  simp only [Prod.fst, Prod.snd]
  rw [lifecycle_step3]
  simp only [Prod.fst, Prod.snd]
  rw [lifecycle_step4]
  simp [lifecycleS3, mapGet_nil, mapGet_cons_self]

/-- C1 fails on the code (evaluated at the failing input): register the
same dependent `(FEEDBACK, "d")` under two different addresses
(`1.1.1.1.1.1` and `1.1.1.1.1.2`, both raw).  `#addParamSubRegistration` never
adds the second subscription id to the dependent's existing reverse-index
set, so after one `deregisterDependent(FEEDBACK, "d")` call the reverse
index only knew about the first subscription: only `1.1.1.1.1.1:STD` is torn
down (one unsubscribe), while `1.1.1.1.1.2:STD` survives in `paramSubMap`
with `"d"` still registered on it — the dependent was *not* removed from
every subscription it was registered under. -/
theorem deregister_misses_second_subscription :
    ((mapGet ((ParameterSubscriptionManager.empty.registerDependent .FEEDBACK
          "d" ⟨1, 1, "1.1.1", 1⟩ .RAW).1.registerDependent .FEEDBACK "d"
          ⟨1, 1, "1.1.1", 2⟩ .RAW).1.paramSubDependentsMap .FEEDBACK).bind
        (fun inner => mapGet inner "d")) = some ["1.1.1.1.1.1:STD"] ∧
      (((ParameterSubscriptionManager.empty.registerDependent .FEEDBACK "d"
          ⟨1, 1, "1.1.1", 1⟩ .RAW).1.registerDependent .FEEDBACK "d"
          ⟨1, 1, "1.1.1", 2⟩ .RAW).1.deregisterDependent .FEEDBACK "d").2
        = [.unsubscribe ⟨1, 1, "1.1.1", 1⟩ .RAW] ∧
      (mapGet (((ParameterSubscriptionManager.empty.registerDependent
          .FEEDBACK "d" ⟨1, 1, "1.1.1", 1⟩ .RAW).1.registerDependent
          .FEEDBACK "d" ⟨1, 1, "1.1.1", 2⟩ .RAW).1.deregisterDependent
          .FEEDBACK "d").1.paramSubMap "1.1.1.1.1.2:STD").map
        (fun sub => sub.dependentRegistrations)
        = some [(.FEEDBACK, ["d"])] := by
  decide

/-- C6 evaluated at the failing input: on a cache miss,
`getParameterValue` registers a waiter and (re-)issues a device subscribe;
when the value notification `5` arrives, the waiter is resolved — but with
the event-args array `[5]` as its result `data` (because `events.once`
resolves with the argument array and `response()` returns it unchanged),
not with the value `5` that the code's own
`ResponseNotification<number | null>` type declares.  The cached path does
return the plain number immediately, and a timeout surfaces a typed error
value in the result rather than a thrown exception. -/
theorem getParameterValue_resolves_args_array :
    (ParameterSubscriptionManager.empty.getParameterValue ⟨1, 1, "1.1.1", 1⟩
        .RAW 1).2.2 = .pending "1.1.1.1.1.1:STD" 1 ∧
      (ParameterSubscriptionManager.empty.getParameterValue ⟨1, 1, "1.1.1", 1⟩
        .RAW 1).2.1
        = [.subscribe ⟨1, 1, "1.1.1", 1⟩ .RAW,
            .subscribe ⟨1, 1, "1.1.1", 1⟩ .RAW] ∧
      ((ParameterSubscriptionManager.empty.getParameterValue ⟨1, 1, "1.1.1", 1⟩
          .RAW 1).1.setCachedParameterValue ⟨1, 1, "1.1.1", 1⟩ .RAW 5).2.2.2
        = [(1, ⟨.arrOfNum [5], none⟩)] ∧
      JsValue.arrOfNum [5] ≠ JsValue.num 5 ∧
      (((ParameterSubscriptionManager.empty.getParameterValue ⟨1, 1, "1.1.1", 1⟩
          .RAW 1).1.setCachedParameterValue ⟨1, 1, "1.1.1", 1⟩ .RAW
          5).1.getParameterValue ⟨1, 1, "1.1.1", 1⟩ .RAW 2).2.2
        = .immediate ⟨.num 5, none⟩ ∧
      (((ParameterSubscriptionManager.empty.getParameterValue ⟨1, 1, "1.1.1", 1⟩
          .RAW 1).1.setCachedParameterValue ⟨1, 1, "1.1.1", 1⟩ .RAW
          5).1.getParameterValue ⟨1, 1, "1.1.1", 1⟩ .RAW 2).2.1 = [] ∧
      (timeoutResult "1.1.1.1.1.1:STD").error.isSome = true ∧
      (timeoutResult "1.1.1.1.1.1:STD").data = .null := by
  decide

/-! ## Node connection watchdog (connection watchdog module)

`NodePoller` is modelled by its online flag and the two streak counters;
one iteration of `#heartBeatQueryFn` is one step, driven by whether the
probe's awaited heartbeat response arrived (`error` from the response
notifier means a miss).  `NodeConnectionWatchdog` holds the poller map and
the aggregate `#connnected` flag (sic); only the `connectionStatus`
emissions are tracked — the claim is about them.  Wall-clock fields
(`lastSeen`, `onlineSince`) and the poll-period sleeps are outside the
model. -/

/-- The mutable counters of a `NodePoller`. -/
structure NodePollerState where
  online : Bool
  hbCount : Nat
  hbMissed : Nat
deriving DecidableEq, Repr

/-- The watchdog thresholds (`options.onlineThreshold` /
`options.offlineThreshold`; both default to 2). -/
structure WatchdogOptions where
  offlineThreshold : Nat
  onlineThreshold : Nat
deriving DecidableEq, Repr

/-- `NodePoller.setStatus`: update `#online` and emit `onlineStatus` only
on a change; the Bool result is whether the event fired. -/
def pollerSetStatus (p : NodePollerState) (online : Bool) :
    NodePollerState × Bool :=
  if online ≠ p.online then ({ p with online := online }, true) else (p, false)

/-- One iteration of `NodePoller.#heartBeatQueryFn`: on a response, zero
the miss streak, bump the hit streak, and go online at
`onlineThreshold`; on a miss, zero the hit streak, bump the miss streak,
and go offline at `offlineThreshold`. -/
def heartBeatQueryFn (opts : WatchdogOptions) (p : NodePollerState)
    (success : Bool) : NodePollerState × Bool :=
  if success then
    let p1 := { p with hbMissed := 0, hbCount := p.hbCount + 1 }
    if p1.hbCount ≥ opts.onlineThreshold then pollerSetStatus p1 true
    else (p1, false)
  else
    let p1 := { p with hbCount := 0, hbMissed := p.hbMissed + 1 }
    if p1.hbMissed ≥ opts.offlineThreshold then pollerSetStatus p1 false
    else (p1, false)

/-- The `NodeConnectionWatchdog` state: the poller map and the aggregate
connection flag (source field `#connnected`). -/
structure NodeConnectionWatchdog where
  nodePollerMap : List (Nat × NodePollerState)
  connnected : Bool
deriving DecidableEq, Repr

/-- `addNode`: create and start a poller for a new node (`start()` zeroes
both streaks; a poller begins OFFLINE). -/
def addNode (st : NodeConnectionWatchdog) (nodeAddress : Nat) :
    NodeConnectionWatchdog :=
  if (mapGet st.nodePollerMap nodeAddress).isSome then st
  else { st with nodePollerMap := mapSet st.nodePollerMap nodeAddress ⟨false, 0, 0⟩ }

/-- A watchdog tracking the given nodes, before any probe completes. -/
def watchdogInit (nodes : List Nat) : NodeConnectionWatchdog :=
  nodes.foldl addNode ⟨[], false⟩

/-- `report.online.size > 0` of `#buildNodeReport` /
`#interpretConnectionStatus`: some tracked poller is online. -/
def anyOnline (m : List (Nat × NodePollerState)) : Bool :=
  m.any (fun e => e.2.online)

/-- One completed probe for one node: the poller steps; if its online
status changed, `#handleNodeOnlineStatus` rebuilds the report,
recomputes the aggregate status and — via the `#setStatus` diff — emits
`connectionStatus` only when the aggregate flipped.  Returns the new state
and the `connectionStatus` values emitted. -/
def watchdogStep (opts : WatchdogOptions) (st : NodeConnectionWatchdog)
    (node : Nat) (success : Bool) : NodeConnectionWatchdog × List Bool :=
  match mapGet st.nodePollerMap node with
  | none => (st, [])
  | some p =>
    let r := heartBeatQueryFn opts p success
    let pollers1 := mapSet st.nodePollerMap node r.1
    let st1 := { st with nodePollerMap := pollers1 }
    if r.2 then
      let connected := anyOnline pollers1
      if connected ≠ st1.connnected then
        ({ st1 with connnected := connected }, [connected])
      else (st1, [])
    else (st1, [])

/-- A finite probe history applied to a fresh watchdog; the second
component accumulates every `connectionStatus` emission. -/
def watchdogRun (opts : WatchdogOptions) (nodes : List Nat)
    (trace : List (Nat × Bool)) : NodeConnectionWatchdog × List Bool :=
  trace.foldl
    (fun acc e =>
      let r := watchdogStep opts acc.1 e.1 e.2
      (r.1, acc.2 ++ r.2))
    (watchdogInit nodes, [])

/-- The per-poller streak bounds that hold in every reachable state with
thresholds 2: an offline poller has a hit streak below the threshold, an
online poller a miss streak below the threshold. -/
def pollerBounds (p : NodePollerState) : Prop :=
  (p.online = false → p.hbCount ≤ 1) ∧ (p.online = true → p.hbMissed ≤ 1)

/-- The watchdog invariant: the aggregate flag equals "some poller
online", and every tracked poller satisfies the streak bounds. -/
def WdInv (st : NodeConnectionWatchdog) : Prop :=
  st.connnected = anyOnline st.nodePollerMap ∧
    ∀ e ∈ st.nodePollerMap, pollerBounds e.2

theorem mem_mapSet {K V : Type} [DecidableEq K] {m : List (K × V)}
    {k : K} {v : V} {e : K × V} (h : e ∈ mapSet m k v) :
    e ∈ m ∨ e = (k, v) := by
  induction m with
  | nil =>
    rw [mapSet_nil] at h
    simpa using h
  | cons e0 rest ih =>
    obtain ⟨k0, v0⟩ := e0
    by_cases hk : k0 = k
    · rw [hk, mapSet_cons_self] at h
      rcases List.mem_cons.1 h with rfl | h2
      · exact Or.inr rfl
      · exact Or.inl (List.mem_cons_of_mem _ h2)
    · rw [mapSet_cons_ne hk] at h
      rcases List.mem_cons.1 h with rfl | h2
      · exact Or.inl (List.mem_cons_self _ _)
      · rcases ih h2 with h3 | h3
        · exact Or.inl (List.mem_cons_of_mem _ h3)
        · exact Or.inr h3

theorem mapGet_mem {K V : Type} [DecidableEq K] {m : List (K × V)} {k : K}
    {v : V} (h : mapGet m k = some v) : (k, v) ∈ m := by
  induction m with
  | nil => cases h
  | cons e0 rest ih =>
    obtain ⟨k0, v0⟩ := e0
    by_cases hk : k0 = k
    · rw [hk, mapGet_cons_self] at h
      rw [hk, Option.some.inj h]
      exact List.mem_cons_self _ _
    · rw [mapGet_cons_ne hk] at h
      exact List.mem_cons_of_mem _ (ih h)

theorem anyOnline_mapSet_same {m : List (Nat × NodePollerState)} {k : Nat}
    {p v : NodePollerState} (hget : mapGet m k = some p)
    (honline : v.online = p.online) :
    anyOnline (mapSet m k v) = anyOnline m := by
  induction m with
  | nil => cases hget
  | cons e0 rest ih =>
    obtain ⟨k0, v0⟩ := e0
    by_cases hk : k0 = k
    · rw [hk, mapSet_cons_self]
      rw [hk, mapGet_cons_self] at hget
      have hv : v0 = p := Option.some.inj hget
      rw [hv]
      simp [anyOnline, honline]
    · rw [mapSet_cons_ne hk]
      rw [mapGet_cons_ne hk] at hget
      simp [anyOnline] at ih ⊢
      rw [ih hget]

theorem heartBeatQueryFn_no_event_same_online (opts : WatchdogOptions)
    (p : NodePollerState) (b : Bool)
    (h : (heartBeatQueryFn opts p b).2 = false) :
    (heartBeatQueryFn opts p b).1.online = p.online := by
  unfold heartBeatQueryFn pollerSetStatus at h ⊢
  cases b <;> cases hpo : p.online <;> simp_all <;> split at h <;>
    split <;> simp_all

theorem watchdogInit_all_fresh (nodes : List Nat) :
    (∀ e ∈ (watchdogInit nodes).nodePollerMap,
        e.2 = (⟨false, 0, 0⟩ : NodePollerState)) ∧
      (watchdogInit nodes).connnected = false := by
  unfold watchdogInit
  suffices h : ∀ st : NodeConnectionWatchdog,
      (∀ e ∈ st.nodePollerMap, e.2 = (⟨false, 0, 0⟩ : NodePollerState)) →
      (∀ e ∈ (nodes.foldl addNode st).nodePollerMap,
          e.2 = (⟨false, 0, 0⟩ : NodePollerState)) ∧
        (nodes.foldl addNode st).connnected = st.connnected by
    have h2 := h ⟨[], false⟩ (by simp)
    exact ⟨h2.1, h2.2⟩
  induction nodes with
  | nil => exact fun st hst => ⟨hst, rfl⟩
  | cons n rest ih =>
    intro st hst
    rw [List.foldl_cons]
    have hadd : ∀ e ∈ (addNode st n).nodePollerMap,
        e.2 = (⟨false, 0, 0⟩ : NodePollerState) := by
      intro e he
      unfold addNode at he
      split at he
      · exact hst e he
      · rcases mem_mapSet he with h1 | h1
        · exact hst e h1
        · rw [h1]


    have hconn : (addNode st n).connnected = st.connnected := by
      unfold addNode
      split <;> rfl
    have h3 := ih (addNode st n) hadd
    exact ⟨h3.1, h3.2.trans hconn⟩

theorem anyOnline_false_of_fresh {m : List (Nat × NodePollerState)}
    (h : ∀ e ∈ m, e.2 = (⟨false, 0, 0⟩ : NodePollerState)) :
    anyOnline m = false := by
  unfold anyOnline
  rw [List.any_eq_false]
  intro e he
  rw [h e he]
  simp

theorem wdInv_init (nodes : List Nat) : WdInv (watchdogInit nodes) := by
  obtain ⟨hfresh, hconn⟩ := watchdogInit_all_fresh nodes
  constructor
  · rw [hconn, anyOnline_false_of_fresh hfresh]
  · intro e he
    rw [hfresh e he]
    exact ⟨fun _ => by simp, fun h => by cases h⟩

theorem pollerBounds_step {p : NodePollerState} (hb : pollerBounds p)
    (b : Bool) : pollerBounds (heartBeatQueryFn ⟨2, 2⟩ p b).1 := by
  obtain ⟨h1, h2⟩ := hb
  unfold heartBeatQueryFn pollerSetStatus pollerBounds
  cases b <;> cases hpo : p.online <;>
    simp_all <;> split <;> simp_all

theorem heartBeatQueryFn_online_transition {p : NodePollerState}
    (hb : pollerBounds p) :
    (heartBeatQueryFn ⟨2, 2⟩ p true).1.online = true ↔
      (p.online = true ∨ p.hbCount + 1 = 2) := by
  obtain ⟨h1, h2⟩ := hb
  unfold heartBeatQueryFn pollerSetStatus
  cases hpo : p.online <;> simp_all
  all_goals split <;> simp_all
  all_goals omega

theorem heartBeatQueryFn_offline_transition {p : NodePollerState}
    (hb : pollerBounds p) :
    (heartBeatQueryFn ⟨2, 2⟩ p false).1.online = false ↔
      (p.online = false ∨ p.hbMissed + 1 = 2) := by
  obtain ⟨h1, h2⟩ := hb
  unfold heartBeatQueryFn pollerSetStatus
  cases hpo : p.online <;> simp_all
  all_goals split <;> simp_all
  all_goals omega

theorem wdInv_step {st : NodeConnectionWatchdog} (hinv : WdInv st)
    (node : Nat) (b : Bool) : WdInv (watchdogStep ⟨2, 2⟩ st node b).1 := by
  obtain ⟨hconn, hbounds⟩ := hinv
  unfold watchdogStep
  cases hget : mapGet st.nodePollerMap node with
  | none => exact ⟨hconn, hbounds⟩
  | some p =>
    have hpb : pollerBounds p := hbounds _ (mapGet_mem hget)
    have hpb2 : pollerBounds (heartBeatQueryFn ⟨2, 2⟩ p b).1 :=
      pollerBounds_step hpb b
    have hmem : ∀ e ∈ mapSet st.nodePollerMap node
        (heartBeatQueryFn ⟨2, 2⟩ p b).1, pollerBounds e.2 := by
      intro e he
      rcases mem_mapSet he with h1 | h1
      · exact hbounds e h1
      · rw [h1]; exact hpb2
    simp only []
    cases hev : (heartBeatQueryFn ⟨2, 2⟩ p b).2 with
    | false =>
      simp only [hev, if_false, Bool.false_eq_true]
      refine ⟨?_, hmem⟩
      rw [hconn,
        anyOnline_mapSet_same hget
          (heartBeatQueryFn_no_event_same_online ⟨2, 2⟩ p b hev)]
    | true =>
      simp only [hev, if_true]
      split
      · exact ⟨rfl, hmem⟩
      · rename_i hsame
        refine ⟨?_, hmem⟩
        simp only [ne_eq, Decidable.not_not] at hsame
        exact hsame.symm

theorem wdInv_run (nodes : List Nat) (trace : List (Nat × Bool)) :
    WdInv (watchdogRun ⟨2, 2⟩ nodes trace).1 := by
  unfold watchdogRun
  suffices h : ∀ (st : NodeConnectionWatchdog) (evs : List Bool), WdInv st →
      WdInv (trace.foldl
        (fun acc e =>
          let r := watchdogStep ⟨2, 2⟩ acc.1 e.1 e.2
          (r.1, acc.2 ++ r.2)) (st, evs)).1 from
    h (watchdogInit nodes) [] (wdInv_init nodes)
  induction trace with
  | nil => exact fun st evs hst => hst
  | cons e rest ih =>
    intro st evs hst
    rw [List.foldl_cons]
    exact ih _ _ (wdInv_step hst e.1 e.2)

theorem watchdogStep_events {st : NodeConnectionWatchdog} (hinv : WdInv st)
    (node : Nat) (b : Bool) :
    (watchdogStep ⟨2, 2⟩ st node b).2
      = if anyOnline (watchdogStep ⟨2, 2⟩ st node b).1.nodePollerMap
            = anyOnline st.nodePollerMap
        then []
        else [anyOnline (watchdogStep ⟨2, 2⟩ st node b).1.nodePollerMap] := by
  obtain ⟨hconn, hbounds⟩ := hinv
  unfold watchdogStep
  cases hget : mapGet st.nodePollerMap node with
  | none => simp
  | some p =>
    simp only []
    cases hev : (heartBeatQueryFn ⟨2, 2⟩ p b).2 with
    | false =>
      have hsame := anyOnline_mapSet_same hget
        (heartBeatQueryFn_no_event_same_online ⟨2, 2⟩ p b hev)
      simp [hsame]
    | true =>
      simp only [if_true]
      split
      · rename_i hne
        rw [hconn] at hne
        simp [hne]
      · rename_i hsame
        simp only [ne_eq, Decidable.not_not] at hsame
        rw [hconn] at hsame
        simp [hsame]

/-- C7: in every state of the watchdog reachable by a finite probe history
with `onlineThreshold = offlineThreshold = 2`: the aggregate connection
flag is CONNECTED exactly when at least one tracked poller is ONLINE; an
OFFLINE poller's hit streak is at most 1 and it transitions to ONLINE on
the next successful probe exactly when that makes the streak reach 2; an
ONLINE poller's miss streak is at most 1 and it transitions to OFFLINE on
the next miss exactly when that makes the miss streak reach 2; and one
further probe step emits `connectionStatus` exactly once when the
aggregate value changes and never otherwise — never once per individual
probe. -/
theorem watchdog_behavior (nodes : List Nat) (trace : List (Nat × Bool))
    (n : Nat) (p : NodePollerState)
    (hp : mapGet (watchdogRun ⟨2, 2⟩ nodes trace).1.nodePollerMap n = some p) :
    ((watchdogRun ⟨2, 2⟩ nodes trace).1.connnected
        = anyOnline (watchdogRun ⟨2, 2⟩ nodes trace).1.nodePollerMap) ∧
      (p.online = false → p.hbCount ≤ 1) ∧
      (p.online = true → p.hbMissed ≤ 1) ∧
      ((heartBeatQueryFn ⟨2, 2⟩ p true).1.online = true ↔
        (p.online = true ∨ p.hbCount + 1 = 2)) ∧
      ((heartBeatQueryFn ⟨2, 2⟩ p false).1.online = false ↔
        (p.online = false ∨ p.hbMissed + 1 = 2)) ∧
      (∀ (node : Nat) (b : Bool),
        (watchdogStep ⟨2, 2⟩ (watchdogRun ⟨2, 2⟩ nodes trace).1 node b).2
          = if anyOnline (watchdogStep ⟨2, 2⟩ (watchdogRun ⟨2, 2⟩ nodes
                trace).1 node b).1.nodePollerMap
              = anyOnline (watchdogRun ⟨2, 2⟩ nodes trace).1.nodePollerMap
            then []
            else [anyOnline (watchdogStep ⟨2, 2⟩ (watchdogRun ⟨2, 2⟩ nodes
              trace).1 node b).1.nodePollerMap]) := by
  have hinv := wdInv_run nodes trace
  have hpb : pollerBounds p := hinv.2 _ (mapGet_mem hp)
  exact ⟨hinv.1, hpb.1, hpb.2, heartBeatQueryFn_online_transition hpb,
    heartBeatQueryFn_offline_transition hpb,
    fun node b => watchdogStep_events hinv node b⟩

/-- Witness for C7: one node, one successful probe.  The poller is at hit
streak 1 and still OFFLINE; the aggregate flag agrees with "some poller
online", and the next successful probe takes it ONLINE because the streak
reaches 2. -/
theorem watchdog_behavior_witness :
    mapGet (watchdogRun ⟨2, 2⟩ [1] [(1, true)]).1.nodePollerMap 1
        = some ⟨false, 1, 0⟩ ∧
      ((watchdogRun ⟨2, 2⟩ [1] [(1, true)]).1.connnected
        = anyOnline (watchdogRun ⟨2, 2⟩ [1] [(1, true)]).1.nodePollerMap) ∧
      ((heartBeatQueryFn ⟨2, 2⟩ ⟨false, 1, 0⟩ true).1.online = true ↔
        ((false : Bool) = true ∨ 1 + 1 = 2)) := by
  have h := watchdog_behavior [1] [(1, true)] 1 ⟨false, 1, 0⟩ (by decide)
  exact ⟨by decide, h.1, h.2.2.2.1⟩

end Soundweb
